import Mathlib

/-!
# Verification of the Ledger-AI expense tracker

A shallow embedding of the TypeScript sources of the Ledger-AI repository:

* `src/shared/schema.ts` — the `User` / `Transaction` data model;
* `src/server/storage.ts` — the in-memory `MemStorage` store (JS `Map`s with
  insertion order) and the AI insight generators (`generateSpendingForecast`,
  `generateBudgetSuggestions`, `generateSavingsGoal`, `detectBillReminders`,
  `detectSpendingPatterns`, `generateAllInsights`);
* the Express route registration (`registerRoutes`) with its auth guard
  `ensureAuthenticated` and the basic `generateInsights` helper.

JavaScript numbers are modelled by exact rationals in canonical form
(`JsNumber`); the values the program computes (integer amounts divided by
100, their sums and averages) are exactly representable.  The OpenAI
chat-completion call is modelled by an oracle `ChatOracle` mapping the built
request to either a thrown error or the JSON value obtained by
`JSON.parse` of the reply; each generator returns, next to its result, the
list of requests it issued, so "number of external call-outs" is a
provable quantity.
-/

/-! ## JavaScript numbers, modelled as exact rationals in canonical form -/

/-- A JavaScript number, modelled as an exact rational `num / den` kept in
canonical (gcd-reduced) form by the arithmetic below.  All values produced
by the program (integer cent amounts divided by 100, sums and averages of
those) are exact. -/
structure JsNumber where
  num : Int
  den : Nat
deriving DecidableEq, Repr

/-- Put `n / d` in canonical form (divide out the gcd). -/
def JsNumber.make (n : Int) (d : Nat) : JsNumber :=
  let g := Nat.gcd n.natAbs d
  if g = 0 then ⟨0, 1⟩ else ⟨n / (g : Int), d / g⟩

def JsNumber.ofInt (n : Int) : JsNumber := ⟨n, 1⟩

instance : OfNat JsNumber n := ⟨JsNumber.ofInt n⟩

def JsNumber.add (a b : JsNumber) : JsNumber :=
  JsNumber.make (a.num * (b.den : Int) + b.num * (a.den : Int)) (a.den * b.den)

def JsNumber.sub (a b : JsNumber) : JsNumber :=
  JsNumber.make (a.num * (b.den : Int) - b.num * (a.den : Int)) (a.den * b.den)

def JsNumber.mul (a b : JsNumber) : JsNumber :=
  JsNumber.make (a.num * b.num) (a.den * b.den)

/-- Division.  Division by zero (JS `Infinity`/`NaN`) is outside the
fragment the program exercises and is modelled as `0`. -/
def JsNumber.div (a b : JsNumber) : JsNumber :=
  if b.num = 0 then ⟨0, 1⟩
  else JsNumber.make (a.num * (b.den : Int) * b.num.sign) (a.den * b.num.natAbs)

/-- The rational value of a `JsNumber`. -/
def JsNumber.toRat (a : JsNumber) : ℚ := (a.num : ℚ) / (a.den : ℚ)

/-- JS `Math.round`: round to the nearest integer, halves toward `+∞`;
this is `⌊x + 1/2⌋`, computed on the exact representation. -/
def jsRound (a : JsNumber) : Int :=
  Int.fdiv (2 * a.num + (a.den : Int)) (2 * (a.den : Int))

/-- Smallest exponent `k ≤ 40` with `den ∣ 10 ^ k`, used to render a
rational with a terminating decimal expansion the way JS prints it. -/
def minPow10 (den : Nat) : Option Nat :=
  (List.range 41).find? (fun k => 10 ^ k % den = 0)

/-- Render a `JsNumber` the way JavaScript stringifies the corresponding
number: integers without a decimal point, other values by their (shortest)
terminating decimal expansion.  Values without a terminating expansion —
which binary floating point cannot hold exactly either, and which the
verified statements never exercise — fall back to a fraction rendering. -/
def JsNumber.render (a : JsNumber) : String :=
  if a.den = 1 then toString a.num
  else
    match minPow10 a.den with
    | some k =>
        let scaled := a.num.natAbs * 10 ^ k / a.den
        let ip := scaled / 10 ^ k
        let fp := scaled % 10 ^ k
        let fs := toString fp
        (if a.num < 0 then "-" else "") ++ toString ip ++ "." ++
          ("".pushn '0' (k - fs.length) ++ fs)
    | none => toString a.num ++ "/" ++ toString a.den

/-! ## JSON values and `JSON.stringify` -/

/-- A JSON value, as produced by `JSON.parse` of a model reply and consumed
by `JSON.stringify` when the program builds prompts.  Object fields are
kept in insertion order, as JS does. -/
inductive Json where
  | null
  | bool (b : Bool)
  | num (q : JsNumber)
  | str (s : String)
  | arr (elems : List Json)
  | obj (fields : List (String × Json))

/-- Escape one character for a JSON string literal (the characters the
program's data can contain). -/
def jsonEscapeChar (c : Char) : String :=
  if c = '"' then "\\\""
  else if c = '\\' then "\\\\"
  else if c = '\n' then "\\n"
  else if c = '\t' then "\\t"
  else if c = '\r' then "\\r"
  else String.singleton c

def jsonEscape (s : String) : String :=
  String.join (s.data.map jsonEscapeChar)

mutual
/-- `JSON.stringify(v)` (compact form, no indentation). -/
def Json.stringify : Json → String
  | .null => "null"
  | .bool b => if b then "true" else "false"
  | .num q => q.render
  | .str s => "\"" ++ jsonEscape s ++ "\""
  | .arr xs => "[" ++ stringifyElems xs ++ "]"
  | .obj fs => "\x7b" ++ stringifyFields fs ++ "\x7d"

def stringifyElems : List Json → String
  | [] => ""
  | [x] => Json.stringify x
  | x :: y :: rest => Json.stringify x ++ "," ++ stringifyElems (y :: rest)

def stringifyFields : List (String × Json) → String
  | [] => ""
  | [(k, v)] => "\"" ++ jsonEscape k ++ "\":" ++ Json.stringify v
  | (k, v) :: p :: rest =>
      "\"" ++ jsonEscape k ++ "\":" ++ Json.stringify v ++ "," ++
        stringifyFields (p :: rest)
end

def jsonIndent (depth : Nat) : String := "".pushn ' ' (2 * depth)

mutual
/-- `JSON.stringify(v, null, 2)`: pretty-printed with two-space
indentation, as the budget / savings / bill / pattern prompts use. -/
def Json.stringifyPretty (depth : Nat) : Json → String
  | .null => "null"
  | .bool b => if b then "true" else "false"
  | .num q => q.render
  | .str s => "\"" ++ jsonEscape s ++ "\""
  | .arr [] => "[]"
  | .arr (x :: xs) =>
      "[\n" ++ prettyElems (depth + 1) (x :: xs) ++ "\n" ++ jsonIndent depth ++ "]"
  | .obj [] => "\x7b\x7d"
  | .obj (f :: fs) =>
      "\x7b\n" ++ prettyFields (depth + 1) (f :: fs) ++ "\n" ++ jsonIndent depth ++ "\x7d"

def prettyElems (depth : Nat) : List Json → String
  | [] => ""
  | [x] => jsonIndent depth ++ Json.stringifyPretty depth x
  | x :: y :: rest =>
      jsonIndent depth ++ Json.stringifyPretty depth x ++ ",\n" ++
        prettyElems depth (y :: rest)

def prettyFields (depth : Nat) : List (String × Json) → String
  | [] => ""
  | [(k, v)] => jsonIndent depth ++ "\"" ++ jsonEscape k ++ "\": " ++
      Json.stringifyPretty depth v
  | (k, v) :: p :: rest =>
      jsonIndent depth ++ "\"" ++ jsonEscape k ++ "\": " ++
        Json.stringifyPretty depth v ++ ",\n" ++ prettyFields depth (p :: rest)
end

/-- Truthiness of a JSON value under JavaScript's rules (`0`, `""`,
`null`, `false` are falsy; objects and arrays are always truthy). -/
def Json.truthy : Json → Bool
  | .null => false
  | .bool b => b
  | .num q => !(q.num = 0)
  | .str s => !(s = "")
  | .arr _ => true
  | .obj _ => true

/-- Property access `j.k` on a parsed reply: the field's value if `j` is an
object containing `k`, otherwise JS `undefined` (modelled as `null`, which
is equally falsy). -/
def Json.field (j : Json) (k : String) : Json :=
  match j with
  | .obj fs => ((fs.find? (fun p => p.1 = k)).map (fun p => p.2)).getD Json.null
  | _ => Json.null

/-- `v || d` where the result is used as a number: a truthy numeric value
passes through, anything falsy yields the default.  (A truthy non-numeric
value, which the code's type annotations rule out, is also modelled as the
default.) -/
def jsOrNum (v : Json) (d : JsNumber) : JsNumber :=
  match v with
  | .num q => if q.num = 0 then d else q
  | _ => d

/-- `v || d` where the result is used as a string. -/
def jsOrStr (v : Json) (d : String) : String :=
  match v with
  | .str s => if s = "" then d else s
  | _ => d

/-- `v || d` on raw JSON values (`result.categoryBreakdown || {}`). -/
def jsOrJson (v : Json) (d : Json) : Json :=
  if v.truthy then v else d

/-! ## Substring search (used to state what a prompt does and does not
contain) -/

def charsStartWith : List Char → List Char → Bool
  | [], _ => true
  | _ :: _, [] => false
  | c :: cs, d :: ds => c == d && charsStartWith cs ds

def charsContain (needle : List Char) : List Char → Bool
  | [] => charsStartWith needle []
  | c :: rest => charsStartWith needle (c :: rest) || charsContain needle rest

/-- `strContains h n` holds when `n` occurs as a contiguous substring of
`h`. -/
def strContains (h n : String) : Bool := charsContain n.data h.data

/-! ## JS `Date`, modelled as milliseconds since the Unix epoch (UTC) -/

/-- A JS `Date`: milliseconds since 1970-01-01T00:00:00Z.  The embedding
works in UTC throughout (the code's `getFullYear`/`getMonth` read the
server's local clock; the claims do not depend on the offset). -/
structure JsDate where
  ms : Int
deriving DecidableEq, Repr

def JsDate.days (d : JsDate) : Int := d.ms.fdiv 86400000

def JsDate.msOfDay (d : JsDate) : Int := d.ms.emod 86400000

/-- Civil date from a day count (days since 1970-01-01), by the standard
Gregorian-calendar algorithm.  Returns `(year, month 1..12, day 1..31)`. -/
def civilFromDays (z0 : Int) : Int × Nat × Nat :=
  let z := z0 + 719468
  let era := z.fdiv 146097
  let doe := (z - era * 146097).toNat
  let yoe := (doe - doe / 1460 + doe / 36524 - doe / 146096) / 365
  let y := (yoe : Int) + era * 400
  let doy := doe - (365 * yoe + yoe / 4 - yoe / 100)
  let mp := (5 * doy + 2) / 153
  let d := doy - (153 * mp + 2) / 5 + 1
  let m := if mp < 10 then mp + 3 else mp - 9
  ((if m ≤ 2 then y + 1 else y), m, d)

def JsDate.getFullYear (d : JsDate) : Int := (civilFromDays d.days).1

/-- JS `getMonth()`: zero-based month. -/
def JsDate.getMonth (d : JsDate) : Int := ((civilFromDays d.days).2.1 : Int) - 1

def JsDate.getDate (d : JsDate) : Nat := (civilFromDays d.days).2.2

/-- JS `getDay()`: day of week, `0` = Sunday (1970-01-01 was a Thursday). -/
def JsDate.getDay (d : JsDate) : Nat := ((d.days + 4).emod 7).toNat

def padTwo (n : Nat) : String :=
  if n < 10 then "0" ++ toString n else toString n

def padThree (n : Nat) : String :=
  if n < 10 then "00" ++ toString n else if n < 100 then "0" ++ toString n else toString n

def padFour (n : Int) : String :=
  if n < 10 then "000" ++ toString n
  else if n < 100 then "00" ++ toString n
  else if n < 1000 then "0" ++ toString n
  else toString n

/-- The date part of `toISOString()`: what
`new Date(t.date).toISOString().split('T')[0]` yields. -/
def JsDate.toISODate (d : JsDate) : String :=
  padFour d.getFullYear ++ "-" ++ padTwo (civilFromDays d.days).2.1 ++ "-" ++
    padTwo d.getDate

/-- Full `toISOString()`, as `res.json` serializes stored `Date` values. -/
def JsDate.toISOString (d : JsDate) : String :=
  let t := d.msOfDay.toNat
  d.toISODate ++ "T" ++ padTwo (t / 3600000) ++ ":" ++ padTwo (t / 60000 % 60) ++
    ":" ++ padTwo (t / 1000 % 60) ++ "." ++ padThree (t % 1000) ++ "Z"

/-! ## The shared schema (`src/shared/schema.ts`) -/

/-- A row of the `users` table. -/
structure User where
  id : Nat
  username : String
  password : String
deriving DecidableEq, Repr

/-- A row of the `transactions` table.  `amount` is an integer number of
cents; `isIncome` marks income rows; `description` is nullable. -/
structure Transaction where
  id : Nat
  userId : Nat
  amount : Int
  category : String
  description : Option String
  date : JsDate
  isIncome : Bool
deriving DecidableEq, Repr

/-- The payload accepted by `insertUserSchema`. -/
structure InsertUser where
  username : String
  password : String
deriving DecidableEq, Repr

/-- The payload accepted by `insertTransactionSchema` (after its Zod
transform, `date` is a `Date`; `createTransaction` still guards with
`transactionData.date ? … : new Date()`, so it is kept optional here). -/
structure InsertTransaction where
  amount : Int
  category : String
  description : Option String
  date : Option JsDate
  isIncome : Bool
deriving DecidableEq, Repr

/-- A basic insight (`Insight` in `schema.ts`); `type` is one of
`'increase' | 'decrease' | 'new_category' | 'tip'`. -/
inductive InsightType where
  | increase
  | decrease
  | new_category
  | tip
deriving DecidableEq, Repr

structure Insight where
  text : String
  type : InsightType
deriving DecidableEq, Repr

/-! ## JS `Map` semantics

A JS `Map` iterates in key-insertion order; `set` on an existing key
updates the entry in place, otherwise appends.  Modelled as an
insertion-ordered association list. -/

def jsMapGet {α : Type} (m : List (Nat × α)) (k : Nat) : Option α :=
  (m.find? (fun p => p.1 = k)).map (fun p => p.2)

def jsMapSet {α : Type} (m : List (Nat × α)) (k : Nat) (v : α) : List (Nat × α) :=
  if m.any (fun p => p.1 = k) then
    m.map (fun p => if p.1 = k then (k, v) else p)
  else
    m ++ [(k, v)]

def jsMapValues {α : Type} (m : List (Nat × α)) : List α :=
  m.map (fun p => p.2)

/-! ## `MemStorage` (`src/server/storage.ts`) -/

/-- The state of a `MemStorage` instance: the two `Map`s and the two id
counters.  (The session store is third-party library state with no bearing
on the claims.) -/
structure MemStorage where
  users : List (Nat × User)
  transactions : List (Nat × Transaction)
  currentUserId : Nat
  currentTransactionId : Nat
deriving Repr

/-- The `MemStorage` constructor. -/
def MemStorage.empty : MemStorage :=
  { users := [], transactions := [], currentUserId := 1, currentTransactionId := 1 }

/-- `getUser`: a read returning the looked-up user and the (unchanged)
store. -/
def MemStorage.getUser (st : MemStorage) (id : Nat) : Option User × MemStorage :=
  (jsMapGet st.users id, st)

/-- `getUserByUsername`: `Array.from(map.values()).find(...)`. -/
def MemStorage.getUserByUsername (st : MemStorage) (username : String) :
    Option User × MemStorage :=
  ((jsMapValues st.users).find? (fun u => u.username = username), st)

/-- `createUser`: take the next id, build the row, `set` it. -/
def MemStorage.createUser (st : MemStorage) (insertUser : InsertUser) :
    User × MemStorage :=
  let id := st.currentUserId
  let user : User := { id := id, username := insertUser.username,
                       password := insertUser.password }
  (user, { st with users := jsMapSet st.users id user, currentUserId := id + 1 })

/-- The sort comparator `(a, b) => new Date(b.date).getTime() - new
Date(a.date).getTime()`, i.e. newest first; `Array.prototype.sort` is
stable. -/
def txTimeDescLe (a b : Transaction) : Bool := decide (b.date.ms ≤ a.date.ms)

/-- `getTransactions`: the user's transactions, newest first. -/
def MemStorage.getTransactions (st : MemStorage) (userId : Nat) :
    List Transaction × MemStorage :=
  (((jsMapValues st.transactions).filter
      (fun t => t.userId = userId)).mergeSort txTimeDescLe, st)

/-- `getTransactionsByMonth`: additionally restrict to the given year and
zero-based month. -/
def MemStorage.getTransactionsByMonth (st : MemStorage) (userId : Nat)
    (year month : Int) : List Transaction × MemStorage :=
  (((jsMapValues st.transactions).filter
      (fun t => t.userId = userId ∧ t.date.getFullYear = year ∧
        t.date.getMonth = month)).mergeSort txTimeDescLe, st)

/-- `createTransaction`: take the next id, build the row (defaulting the
date to `new Date()`, the current time `now`), `set` it.  The `userId`
merged into the payload by the route is a separate argument. -/
def MemStorage.createTransaction (st : MemStorage) (data : InsertTransaction)
    (userId : Nat) (now : JsDate) : Transaction × MemStorage :=
  let id := st.currentTransactionId
  let tx : Transaction :=
    { id := id, userId := userId, amount := data.amount,
      category := data.category, description := data.description,
      date := data.date.getD now, isIncome := data.isIncome }
  (tx,
    { st with
      transactions := jsMapSet st.transactions id tx
      currentTransactionId := id + 1 })

/-! ## AI insight generation (`ai-insights` module in `src/server/storage.ts`)

Each generator builds one chat-completion request and parses the reply.
The OpenAI client is modelled by an oracle mapping the request to either a
thrown error (network failure, invalid JSON — anything the `catch` absorbs)
or the JSON value `JSON.parse` yields for the reply content.  Each
generator returns its result together with the list of requests it issued,
so the number of external call-outs is part of the model. -/

/-- A chat-completion request: the model name and the two messages. -/
structure ChatRequest where
  model : String
  system : String
  user : String
deriving DecidableEq, Repr

/-- The external chat-completion endpoint, as an oracle. -/
def ChatOracle : Type := ChatRequest → Except String Json

/-- A transaction as the generators reshape it before prompting: the
amount divided by 100 (cents → rupees) and the date reduced to its ISO
day, the other fields spread through unchanged. -/
structure FormattedTx where
  id : Nat
  userId : Nat
  amount : JsNumber
  category : String
  description : Option String
  date : String
  isIncome : Bool
deriving DecidableEq, Repr

def formatTransaction (t : Transaction) : FormattedTx :=
  { id := t.id, userId := t.userId,
    amount := (JsNumber.ofInt t.amount).div (JsNumber.ofInt 100),
    category := t.category, description := t.description,
    date := t.date.toISODate, isIncome := t.isIncome }

/-- `transactions.filter((t) => !t.isIncome)`. -/
def expenseTransactions (txs : List Transaction) : List Transaction :=
  txs.filter (fun t => !t.isIncome)

/-- The `formattedTransactions` every generator builds. -/
def formattedExpenses (txs : List Transaction) : List FormattedTx :=
  (expenseTransactions txs).map formatTransaction

/-- How `JSON.stringify` sees a formatted transaction.  Spread preserves
key order, so the keys appear in the order the stored object was built:
the Zod-parsed body (`amount, category, description, isIncome, date`),
then the `userId` merged by the route, then the `id` appended by
`createTransaction`.  A `null` description serializes as `null`. -/
def encodeFormattedTx (t : FormattedTx) : Json :=
  .obj [("amount", .num t.amount),
        ("category", .str t.category),
        ("description", match t.description with
          | some s => .str s
          | none => .null),
        ("isIncome", .bool t.isIncome),
        ("date", .str t.date),
        ("userId", .num (JsNumber.ofInt (t.userId : Int))),
        ("id", .num (JsNumber.ofInt (t.id : Int)))]

/-- `byCategory`: amounts grouped by category, keys in first-occurrence
order, amounts in list order (the `forEach`/`push` loop). -/
def groupAmounts (ts : List FormattedTx) : List (String × List JsNumber) :=
  ts.foldl
    (fun acc t =>
      if acc.any (fun p => p.1 = t.category) then
        acc.map (fun p => if p.1 = t.category then (p.1, p.2 ++ [t.amount]) else p)
      else acc ++ [(t.category, [t.amount])])
    []

/-- `categoryTotals`: per category, `total = amounts.reduce(+, 0)` and
`avg = total / amounts.length`. -/
def categoryTotals (g : List (String × List JsNumber)) :
    List (String × JsNumber × JsNumber) :=
  g.map (fun p =>
    let total := p.2.foldl JsNumber.add (JsNumber.ofInt 0)
    (p.1, total, total.div (JsNumber.ofInt (p.2.length : Int))))

def encodeCategoryTotals (l : List (String × JsNumber × JsNumber)) : Json :=
  .obj (l.map (fun p =>
    (p.1, Json.obj [("total", .num p.2.1), ("avg", .num p.2.2)])))

/-- The spending-forecast request (`generateSpendingForecast`). -/
def forecastRequest (txs : List Transaction) : ChatRequest :=
  let fts := formattedExpenses txs
  let totals := categoryTotals (groupAmounts fts)
  { model := "gpt-4o"
    system := "You are a financial analyst assistant that creates spending forecasts based on transaction history. Provide the forecast in JSON format with categoryBreakdown and confidence level (0-1)."
    user := "Based on these transaction patterns, generate a spending forecast for next month in Indian Rupees (₹). \n          User transaction history: " ++
      Json.stringify (.arr (fts.map encodeFormattedTx)) ++
      "\n          Category analysis: " ++
      Json.stringify (encodeCategoryTotals totals) ++
      "\n          \n          Provide the forecast in JSON format with:\n          1. Expected total expense amount\n          2. Breakdown by category \n          3. Confidence level (0-1)" }

structure SpendingForecastNextMonth where
  totalExpense : Int
  categoryBreakdown : Json

structure SpendingForecast where
  nextMonth : SpendingForecastNextMonth
  confidence : JsNumber

/-- `generateSpendingForecast`: below 5 transactions return `null` before
any call; otherwise one call, whose parsed reply is shaped with
`Math.round(result.totalExpense || 0)`, `result.categoryBreakdown || {}`
and `result.confidence || 0.5`; any thrown error is caught to `null`. -/
def generateSpendingForecast (txs : List Transaction) (respond : ChatOracle) :
    Option SpendingForecast × List ChatRequest :=
  if txs.length < 5 then (none, [])
  else
    let req := forecastRequest txs
    match respond req with
    | .error _ => (none, [req])
    | .ok result =>
        (some { nextMonth :=
                  { totalExpense := jsRound (jsOrNum (result.field "totalExpense") (JsNumber.ofInt 0))
                    categoryBreakdown := jsOrJson (result.field "categoryBreakdown") (.obj []) }
                confidence := jsOrNum (result.field "confidence") ⟨1, 2⟩ },
         [req])

/-- `byCategory` of `generateBudgetSuggestions`: per category the running
total, the count and the grouped transactions themselves. -/
def budgetGroups (ts : List FormattedTx) :
    List (String × JsNumber × Nat × List FormattedTx) :=
  ts.foldl
    (fun acc t =>
      if acc.any (fun p => p.1 = t.category) then
        acc.map (fun p =>
          if p.1 = t.category then
            (p.1, p.2.1.add t.amount, p.2.2.1 + 1, p.2.2.2 ++ [t])
          else p)
      else acc ++ [(t.category, (JsNumber.ofInt 0).add t.amount, 1, [t])])
    []

def encodeBudgetGroups (l : List (String × JsNumber × Nat × List FormattedTx)) : Json :=
  .obj (l.map (fun p =>
    (p.1, Json.obj [("total", .num p.2.1),
                    ("count", .num (JsNumber.ofInt (p.2.2.1 : Int))),
                    ("transactions", .arr (p.2.2.2.map encodeFormattedTx))])))

def budgetRequest (txs : List Transaction) : ChatRequest :=
  let groups := budgetGroups (formattedExpenses txs)
  { model := "gpt-4o"
    system := "You are a financial advisor that creates personalized budget suggestions based on spending patterns. Provide suggestions in JSON format."
    user := "Based on these spending patterns in Indian Rupees (₹), generate budget suggestions for up to 3 categories where the user could improve. \n          \n          Category spending: " ++
      Json.stringifyPretty 0 (encodeBudgetGroups groups) ++
      "\n          \n          Format each suggestion as a JSON object with:\n          1. category name\n          2. current monthly spending\n          3. suggested budget (in rupees)\n          4. brief reasoning for the suggestion" }

structure BudgetSuggestion where
  category : Json
  currentSpending : Int
  suggestedBudget : Int
  reasoning : String

def parseBudgetSuggestion (j : Json) : BudgetSuggestion :=
  { category := j.field "category"
    currentSpending := jsRound (jsOrNum (j.field "currentSpending") (JsNumber.ofInt 0))
    suggestedBudget := jsRound (jsOrNum (j.field "suggestedBudget") (JsNumber.ofInt 0))
    reasoning := jsOrStr (j.field "reasoning") "" }

/-- `generateBudgetSuggestions`: below 5 transactions `null`; otherwise
one call; the reply's `suggestions` array is mapped element-wise with the
rounding / default rules, a non-array reply yields `null`. -/
def generateBudgetSuggestions (txs : List Transaction) (respond : ChatOracle) :
    Option (List BudgetSuggestion) × List ChatRequest :=
  if txs.length < 5 then (none, [])
  else
    let req := budgetRequest txs
    match respond req with
    | .error _ => (none, [req])
    | .ok result =>
        match result.field "suggestions" with
        | .arr xs => (some (xs.map parseBudgetSuggestion), [req])
        | _ => (none, [req])

/-- `categoryAnalysis` of `generateSavingsGoal`: per category the total,
the average and the number of transactions. -/
def categoryAnalysis (g : List (String × List JsNumber)) :
    List (String × JsNumber × JsNumber × Nat) :=
  g.map (fun p =>
    let total := p.2.foldl JsNumber.add (JsNumber.ofInt 0)
    (p.1, total, total.div (JsNumber.ofInt (p.2.length : Int)), p.2.length))

def encodeCategoryAnalysis (l : List (String × JsNumber × JsNumber × Nat)) : Json :=
  .obj (l.map (fun p =>
    (p.1, Json.obj [("total", .num p.2.1),
                    ("avg", .num p.2.2.1),
                    ("transactions", .num (JsNumber.ofInt (p.2.2.2 : Int)))])))

def savingsRequest (txs : List Transaction) (goalAmount : JsNumber) : ChatRequest :=
  let analysis := categoryAnalysis (groupAmounts (formattedExpenses txs))
  { model := "gpt-4o"
    system := "You are a financial advisor that creates personalized savings goals based on spending patterns. Provide suggestions in JSON format."
    user := "Based on these spending patterns in Indian Rupees (₹), generate a realistic savings goal to save ₹" ++
      goalAmount.render ++
      ".\n          \n          Category spending: " ++
      Json.stringifyPretty 0 (encodeCategoryAnalysis analysis) ++
      "\n          \n          Create a JSON response with:\n          1. targetAmount (the goal amount in rupees)\n          2. timeframeMonths (realistic number of months to achieve the goal, between 1-12)\n          3. categoryCuts (array of categories where spending can be reduced)\n             - Each categoryCut should have: category, currentSpending, suggestedReduction, and monthlySavings\n          4. brief reasoning explaining the plan" }

structure SavingsCategoryCut where
  category : Json
  currentSpending : Int
  suggestedReduction : Int
  monthlySavings : Int

structure SavingsGoal where
  targetAmount : JsNumber
  timeframeMonths : JsNumber
  categoryCuts : List SavingsCategoryCut
  reasoning : String

def parseSavingsCategoryCut (j : Json) : SavingsCategoryCut :=
  { category := j.field "category"
    currentSpending := jsRound (jsOrNum (j.field "currentSpending") (JsNumber.ofInt 0))
    suggestedReduction := jsRound (jsOrNum (j.field "suggestedReduction") (JsNumber.ofInt 0))
    monthlySavings := jsRound (jsOrNum (j.field "monthlySavings") (JsNumber.ofInt 0)) }

/-- `const goalAmount = targetAmount || 5000` (default ₹5,000; a falsy —
absent, zero or `NaN` — target falls back to the default). -/
def savingsGoalAmount (targetAmount : Option JsNumber) : JsNumber :=
  match targetAmount with
  | some q => if q.num = 0 then JsNumber.ofInt 5000 else q
  | none => JsNumber.ofInt 5000

/-- `generateSavingsGoal`: below 5 transactions `null`; otherwise
`goalAmount = targetAmount || 5000`, one call, and a reply shaped with
`result.targetAmount || goalAmount`, `result.timeframeMonths || 3`, an
element-wise mapped `categoryCuts` array (or `[]`), and
`result.reasoning || ""`. -/
def generateSavingsGoal (txs : List Transaction) (targetAmount : Option JsNumber)
    (respond : ChatOracle) : Option SavingsGoal × List ChatRequest :=
  if txs.length < 5 then (none, [])
  else
    let goalAmount := savingsGoalAmount targetAmount
    let req := savingsRequest txs goalAmount
    match respond req with
    | .error _ => (none, [req])
    | .ok result =>
        (some { targetAmount := jsOrNum (result.field "targetAmount") goalAmount
                timeframeMonths := jsOrNum (result.field "timeframeMonths") (JsNumber.ofInt 3)
                categoryCuts := match result.field "categoryCuts" with
                  | .arr xs => xs.map parseSavingsCategoryCut
                  | _ => []
                reasoning := jsOrStr (result.field "reasoning") "" },
         [req])

def billsRequest (txs : List Transaction) : ChatRequest :=
  let fts := formattedExpenses txs
  { model := "gpt-4o"
    system := "You are a financial assistant that identifies recurring bill patterns from transaction history. Provide detected bill reminders in JSON format."
    user := "Based on these transactions in Indian Rupees (₹), identify any recurring bills or subscriptions and when they might be due next.\n          \n          Transaction history: " ++
      Json.stringifyPretty 0 (.arr (fts.map encodeFormattedTx)) ++
      "\n          \n          Create a JSON response with an array of bill reminders, each containing:\n          1. description (what the bill seems to be for)\n          2. estimatedAmount (in rupees)\n          3. dueDate (estimated next due date in YYYY-MM-DD format)\n          4. confidence (0-1 indicating how confident you are in this prediction)" }

structure BillReminder where
  description : String
  estimatedAmount : Int
  dueDate : String
  confidence : JsNumber

def parseBillReminder (j : Json) : BillReminder :=
  { description := jsOrStr (j.field "description") ""
    estimatedAmount := jsRound (jsOrNum (j.field "estimatedAmount") (JsNumber.ofInt 0))
    dueDate := jsOrStr (j.field "dueDate") ""
    confidence := jsOrNum (j.field "confidence") ⟨1, 2⟩ }

/-- `detectBillReminders`: below 10 transactions `null`; otherwise one
call; the reply's `billReminders` array is mapped element-wise, a
non-array reply yields `null`. -/
def detectBillReminders (txs : List Transaction) (respond : ChatOracle) :
    Option (List BillReminder) × List ChatRequest :=
  if txs.length < 10 then (none, [])
  else
    let req := billsRequest txs
    match respond req with
    | .error _ => (none, [req])
    | .ok result =>
        match result.field "billReminders" with
        | .arr xs => (some (xs.map parseBillReminder), [req])
        | _ => (none, [req])

def dayOfWeekNames : List String :=
  ["Sunday", "Monday", "Tuesday", "Wednesday", "Thursday", "Friday", "Saturday"]

/-- The `dayOfWeekDistribution` object, keys in the literal's order.  The
code re-parses each formatted ISO day string; at UTC that yields the same
civil day as the stored date, so the weekday is read off the stored
date. -/
def dayOfWeekDistribution (txs : List Transaction) : List (String × Nat) :=
  (expenseTransactions txs).foldl
    (fun dist t =>
      let name := dayOfWeekNames.getD t.date.getDay ""
      dist.map (fun p => if p.1 = name then (p.1, p.2 + 1) else p))
    [("Monday", 0), ("Tuesday", 0), ("Wednesday", 0), ("Thursday", 0),
     ("Friday", 0), ("Saturday", 0), ("Sunday", 0)]

def encodeDayDistribution (l : List (String × Nat)) : Json :=
  .obj (l.map (fun p => (p.1, Json.num (JsNumber.ofInt (p.2 : Int)))))

def patternsRequest (txs : List Transaction) : ChatRequest :=
  let fts := formattedExpenses txs
  let dist := dayOfWeekDistribution txs
  let totalExpense := fts.foldl (fun s t => s.add t.amount) (JsNumber.ofInt 0)
  { model := "gpt-4o"
    system := "You are a financial behavior analyst that identifies spending patterns and provides helpful insights. Provide detected patterns in JSON format."
    user := "Based on these transactions in Indian Rupees (₹), identify behavioral spending patterns that could help the user save money.\n          \n          Transaction history: " ++
      Json.stringifyPretty 0 (.arr ((fts.take 20).map encodeFormattedTx)) ++
      "\n          Day of week distribution: " ++
      Json.stringifyPretty 0 (encodeDayDistribution dist) ++
      "\n          Total expenses: ₹" ++ totalExpense.render ++
      "\n          \n          Create a JSON response with an array of spending patterns, each containing:\n          1. pattern (description of the detected pattern)\n          2. impact (approximate percentage of total spending affected by this pattern)\n          3. suggestion (helpful advice for managing this spending pattern)" }

structure SpendingPattern where
  pattern : String
  impact : JsNumber
  suggestion : String

def parseSpendingPattern (j : Json) : SpendingPattern :=
  { pattern := jsOrStr (j.field "pattern") ""
    impact := jsOrNum (j.field "impact") (JsNumber.ofInt 0)
    suggestion := jsOrStr (j.field "suggestion") "" }

/-- `detectSpendingPatterns`: below 10 transactions `null`; otherwise one
call; the reply's `patterns` array is mapped element-wise, a non-array
reply yields `null`. -/
def detectSpendingPatterns (txs : List Transaction) (respond : ChatOracle) :
    Option (List SpendingPattern) × List ChatRequest :=
  if txs.length < 10 then (none, [])
  else
    let req := patternsRequest txs
    match respond req with
    | .error _ => (none, [req])
    | .ok result =>
        match result.field "patterns" with
        | .arr xs => (some (xs.map parseSpendingPattern), [req])
        | _ => (none, [req])

structure AIInsights where
  spendingForecast : Option SpendingForecast
  budgetSuggestions : Option (List BudgetSuggestion)
  savingsGoals : Option (List SavingsGoal)
  billReminders : Option (List BillReminder)
  spendingPatterns : Option (List SpendingPattern)

/-- `generateAllInsights`: run the five generators (the code runs them in
parallel over the same transaction list; the oracle is a function of the
request, so sequencing is immaterial) and keep whichever succeeded.  A
successful savings goal is wrapped in a singleton array. -/
def generateAllInsights (txs : List Transaction) (respond : ChatOracle) :
    AIInsights × List ChatRequest :=
  let f := generateSpendingForecast txs respond
  let b := generateBudgetSuggestions txs respond
  let s := generateSavingsGoal txs none respond
  let br := detectBillReminders txs respond
  let sp := detectSpendingPatterns txs respond
  ({ spendingForecast := f.1
     budgetSuggestions := b.1
     savingsGoals := s.1.map (fun g => [g])
     billReminders := br.1
     spendingPatterns := sp.1 },
   f.2 ++ b.2 ++ s.2 ++ br.2 ++ sp.2)

/-! ## The basic (non-LLM) insights helper `generateInsights`
(route registration module) -/

/-- `currentByCategory` / `previousByCategory`: per-category expense sums
over a month's transactions, built with `Map.get(...) || 0` and
`Map.set`. -/
def groupExpenseSums (txs : List Transaction) : List (String × Int) :=
  (txs.filter (fun t => !t.isIncome)).foldl
    (fun acc t =>
      if acc.any (fun p => p.1 = t.category) then
        acc.map (fun p => if p.1 = t.category then (p.1, p.2 + t.amount) else p)
      else acc ++ [(t.category, t.amount)])
    []

def assocSumGetD (m : List (String × Int)) (k : String) (d : Int) : Int :=
  ((m.find? (fun p => p.1 = k)).map (fun p => p.2)).getD d

def welcomeInsight : Insight :=
  { text := "Welcome to your expense tracker! Add more transactions to get personalized insights."
    type := .tip }

def fallbackInsight : Insight :=
  { text := "Add more transactions to get personalized spending insights."
    type := .tip }

def genericTips : List String :=
  ["Try setting a monthly budget for each spending category to better track your expenses.",
   "Consider saving at least 20% of your income each month for financial security.",
   "Review your subscriptions regularly to identify services you no longer use."]

/-- One of the three generic tips; `Math.floor(Math.random() * 3)` is
modelled by the index argument. -/
def genericTipInsight (i : Nat) : Insight :=
  { text := genericTips.getD i "", type := .tip }

/-- The per-category loop of `generateInsights`: a `new_category` insight
when the category is absent from the previous month, otherwise an
`increase`/`decrease` insight when the rounded percentage change reaches
±25. -/
def categoryChangeInsights (currentMonthData previousMonthData : List Transaction) :
    List Insight :=
  let currentByCategory := groupExpenseSums currentMonthData
  let previousByCategory := groupExpenseSums previousMonthData
  currentByCategory.flatMap (fun p =>
    let previousAmount := assocSumGetD previousByCategory p.1 0
    if previousAmount = 0 then
      [{ text := "New spending category detected: " ++ p.1 ++
           ". Consider if this is a one-time expense or a new budget item."
         type := .new_category }]
    else
      let pct := jsRound (((JsNumber.ofInt (p.2 - previousAmount)).div
        (JsNumber.ofInt previousAmount)).mul (JsNumber.ofInt 100))
      (if 25 ≤ pct then
        [{ text := "Your " ++ p.1 ++ " expenses increased by " ++ toString pct ++
             "% compared to last month. Consider setting a budget for this category."
           type := .increase }]
      else []) ++
      (if pct ≤ -25 then
        [{ text := "Great job! You reduced your " ++ p.1 ++ " expenses by " ++
             toString pct.natAbs ++ "% compared to last month."
           type := .decrease }]
      else []))

/-- The body of `generateInsights`' promise, with the results of the two
`getTransactionsByMonth` awaits injected (`.error` models a rejected
fetch, absorbed by the `catch`).  The function always resolves. -/
def generateInsightsCore (currentFetch previousFetch : Except String (List Transaction))
    (tipIndex : Fin 3) : List Insight :=
  match currentFetch, previousFetch with
  | .ok currentMonthData, .ok previousMonthData =>
      if previousMonthData.length = 0 then [welcomeInsight]
      else
        let ins := categoryChangeInsights currentMonthData previousMonthData
        let ins := if ins.length = 0 then [genericTipInsight tipIndex.1] else ins
        ins.take 3
  | _, _ => [fallbackInsight]

/-- `generateInsights(currentMonth, previousMonth, userId)` against a live
store (whose reads never throw). -/
def generateInsights (st : MemStorage) (currentMonth previousMonth : Int × Int)
    (userId : Nat) (tipIndex : Fin 3) : List Insight :=
  generateInsightsCore
    (.ok (st.getTransactionsByMonth userId currentMonth.1 currentMonth.2).1)
    (.ok (st.getTransactionsByMonth userId previousMonth.1 previousMonth.2).1)
    tipIndex

/-! ## The REST routes (`registerRoutes`)

Each route model takes the authentication state as a boolean (what
`req.isAuthenticated()` returned; `ensureAuthenticated` short-circuits to
`401 Unauthorized` when it is false).  Where a claim concerns the mapping
of thrown errors, the result of the fallible storage `await` is injected
as an `Except` (the in-memory store itself never throws).  A route without
a `try/catch` propagates the error (`Except.error` — in Express 4 such an
async rejection produces no response at all). -/

structure Response where
  status : Nat
  body : Json

def jsonMessage (s : String) : Json := .obj [("message", .str s)]

def unauthorizedResponse : Response :=
  { status := 401, body := jsonMessage "Unauthorized" }

/-- How `res.json` serializes a stored transaction (keys in the object's
build order; the `Date` serializes via `toISOString`). -/
def encodeTransaction (t : Transaction) : Json :=
  .obj [("amount", .num (JsNumber.ofInt t.amount)),
        ("category", .str t.category),
        ("description", match t.description with
          | some s => .str s
          | none => .null),
        ("isIncome", .bool t.isIncome),
        ("date", .str t.date.toISOString),
        ("userId", .num (JsNumber.ofInt (t.userId : Int))),
        ("id", .num (JsNumber.ofInt (t.id : Int)))]

/-- `GET /api/transactions`: no `try/catch` — a storage error would
propagate. -/
def getTransactionsRoute (authed : Bool)
    (txsResult : Except String (List Transaction)) : Except String Response :=
  if authed then
    match txsResult with
    | .ok transactions => .ok { status := 200, body := .arr (transactions.map encodeTransaction) }
    | .error e => .error e
  else .ok unauthorizedResponse

/-- What the `catch` of `POST /api/transactions` can see: a
`ZodError` from `insertTransactionSchema.parse` or any other thrown
error. -/
inductive BodyParseError where
  | zodError (errors : List String)
  | otherError (msg : String)

/-- `POST /api/transactions`. -/
def postTransactionRoute (authed : Bool) (st : MemStorage) (userId : Nat)
    (parsedBody : Except BodyParseError InsertTransaction) (now : JsDate) :
    Response × MemStorage :=
  if authed then
    match parsedBody with
    | .ok transactionData =>
        let r := st.createTransaction transactionData userId now
        ({ status := 201, body := encodeTransaction r.1 }, r.2)
    | .error (.zodError errs) =>
        ({ status := 400, body := .obj [("message", .arr (errs.map Json.str))] }, st)
    | .error (.otherError _) =>
        ({ status := 500, body := jsonMessage "Failed to create transaction" }, st)
  else (unauthorizedResponse, st)

/-- `GET /api/transactions/month/:year/:month`; `none` models a `NaN`
parse of a path parameter. -/
def transactionsByMonthRoute (authed : Bool) (st : MemStorage) (userId : Nat)
    (year month : Option Int) : Response :=
  if authed then
    match year, month with
    | some y, some m =>
        if m < 0 ∨ 11 < m then { status := 400, body := jsonMessage "Invalid year or month" }
        else { status := 200,
               body := .arr ((st.getTransactionsByMonth userId y m).1.map encodeTransaction) }
    | _, _ => { status := 400, body := jsonMessage "Invalid year or month" }
  else unauthorizedResponse

def encodeInsight (i : Insight) : Json :=
  .obj [("text", .str i.text),
        ("type", .str (match i.type with
          | .increase => "increase"
          | .decrease => "decrease"
          | .new_category => "new_category"
          | .tip => "tip"))]

/-- `GET /api/insights`: compute the current and previous month from the
clock and serve the basic insights. -/
def insightsRoute (authed : Bool) (st : MemStorage) (userId : Nat) (now : JsDate)
    (tipIndex : Fin 3) : Response :=
  if authed then
    let currentMonth := (now.getFullYear, now.getMonth)
    let previousMonth :=
      if currentMonth.2 = 0 then (currentMonth.1 - 1, (11 : Int))
      else (currentMonth.1, currentMonth.2 - 1)
    { status := 200,
      body := .arr ((generateInsights st currentMonth previousMonth userId tipIndex).map
        encodeInsight) }
  else unauthorizedResponse

def encodeForecast (f : SpendingForecast) : Json :=
  .obj [("nextMonth", .obj [("totalExpense", .num (JsNumber.ofInt f.nextMonth.totalExpense)),
                            ("categoryBreakdown", f.nextMonth.categoryBreakdown)]),
        ("confidence", .num f.confidence)]

def encodeBudgetSuggestion (b : BudgetSuggestion) : Json :=
  .obj [("category", b.category),
        ("currentSpending", .num (JsNumber.ofInt b.currentSpending)),
        ("suggestedBudget", .num (JsNumber.ofInt b.suggestedBudget)),
        ("reasoning", .str b.reasoning)]

def encodeSavingsCategoryCut (c : SavingsCategoryCut) : Json :=
  .obj [("category", c.category),
        ("currentSpending", .num (JsNumber.ofInt c.currentSpending)),
        ("suggestedReduction", .num (JsNumber.ofInt c.suggestedReduction)),
        ("monthlySavings", .num (JsNumber.ofInt c.monthlySavings))]

def encodeSavingsGoal (g : SavingsGoal) : Json :=
  .obj [("targetAmount", .num g.targetAmount),
        ("timeframeMonths", .num g.timeframeMonths),
        ("categoryCuts", .arr (g.categoryCuts.map encodeSavingsCategoryCut)),
        ("reasoning", .str g.reasoning)]

def encodeBillReminder (b : BillReminder) : Json :=
  .obj [("description", .str b.description),
        ("estimatedAmount", .num (JsNumber.ofInt b.estimatedAmount)),
        ("dueDate", .str b.dueDate),
        ("confidence", .num b.confidence)]

def encodeSpendingPattern (p : SpendingPattern) : Json :=
  .obj [("pattern", .str p.pattern),
        ("impact", .num p.impact),
        ("suggestion", .str p.suggestion)]

/-- `res.json(insights)`: only the successfully generated insight groups
appear, in assignment order. -/
def encodeAIInsights (i : AIInsights) : Json :=
  .obj
    ((match i.spendingForecast with
      | some f => [("spendingForecast", encodeForecast f)]
      | none => []) ++
     (match i.budgetSuggestions with
      | some bs => [("budgetSuggestions", Json.arr (bs.map encodeBudgetSuggestion))]
      | none => []) ++
     (match i.savingsGoals with
      | some gs => [("savingsGoals", Json.arr (gs.map encodeSavingsGoal))]
      | none => []) ++
     (match i.billReminders with
      | some bs => [("billReminders", Json.arr (bs.map encodeBillReminder))]
      | none => []) ++
     (match i.spendingPatterns with
      | some ps => [("spendingPatterns", Json.arr (ps.map encodeSpendingPattern))]
      | none => []))

/-- `GET /api/ai-insights`: refuse with a message below 5 transactions,
otherwise run all generators; a thrown storage error maps to 500. -/
def aiInsightsRoute (authed : Bool) (txsResult : Except String (List Transaction))
    (respond : ChatOracle) : Response × List ChatRequest :=
  if authed then
    match txsResult with
    | .error e =>
        ({ status := 500,
           body := .obj [("message", .str "Failed to generate AI insights"),
                         ("error", .str e)] }, [])
    | .ok transactions =>
        if transactions.length < 5 then
          ({ status := 200,
             body := jsonMessage "Add more transactions to receive AI-powered financial insights" }, [])
        else
          let r := generateAllInsights transactions respond
          ({ status := 200, body := encodeAIInsights r.1 }, r.2)
  else (unauthorizedResponse, [])

/-- `GET /api/ai-insights/spending-forecast`. -/
def spendingForecastRoute (authed : Bool) (txsResult : Except String (List Transaction))
    (respond : ChatOracle) : Response × List ChatRequest :=
  if authed then
    match txsResult with
    | .error _ => ({ status := 500, body := jsonMessage "Failed to generate spending forecast" }, [])
    | .ok transactions =>
        let r := generateSpendingForecast transactions respond
        match r.1 with
        | none =>
            ({ status := 200,
               body := jsonMessage "Not enough transaction data to generate a spending forecast" }, r.2)
        | some f => ({ status := 200, body := encodeForecast f }, r.2)
  else (unauthorizedResponse, [])

/-- `GET /api/ai-insights/budget-suggestions`. -/
def budgetSuggestionsRoute (authed : Bool) (txsResult : Except String (List Transaction))
    (respond : ChatOracle) : Response × List ChatRequest :=
  if authed then
    match txsResult with
    | .error _ => ({ status := 500, body := jsonMessage "Failed to generate budget suggestions" }, [])
    | .ok transactions =>
        let r := generateBudgetSuggestions transactions respond
        match r.1 with
        | none =>
            ({ status := 200,
               body := jsonMessage "Not enough transaction data to generate budget suggestions" }, r.2)
        | some bs => ({ status := 200, body := .arr (bs.map encodeBudgetSuggestion) }, r.2)
  else (unauthorizedResponse, [])

/-- `GET /api/ai-insights/savings-goals`; `targetAmount` is the
`parseInt` of the query parameter when one was given. -/
def savingsGoalsRoute (authed : Bool) (txsResult : Except String (List Transaction))
    (targetAmount : Option Int) (respond : ChatOracle) : Response × List ChatRequest :=
  if authed then
    match txsResult with
    | .error _ => ({ status := 500, body := jsonMessage "Failed to generate savings goal" }, [])
    | .ok transactions =>
        let r := generateSavingsGoal transactions (targetAmount.map JsNumber.ofInt) respond
        match r.1 with
        | none =>
            ({ status := 200,
               body := jsonMessage "Not enough transaction data to generate a savings goal" }, r.2)
        | some g => ({ status := 200, body := encodeSavingsGoal g }, r.2)
  else (unauthorizedResponse, [])

/-- `GET /api/ai-insights/bill-reminders`. -/
def billRemindersRoute (authed : Bool) (txsResult : Except String (List Transaction))
    (respond : ChatOracle) : Response × List ChatRequest :=
  if authed then
    match txsResult with
    | .error _ => ({ status := 500, body := jsonMessage "Failed to generate bill reminders" }, [])
    | .ok transactions =>
        let r := detectBillReminders transactions respond
        match r.1 with
        | none =>
            ({ status := 200,
               body := jsonMessage "Not enough transaction data to detect recurring bills" }, r.2)
        | some bs => ({ status := 200, body := .arr (bs.map encodeBillReminder) }, r.2)
  else (unauthorizedResponse, [])

/-- `GET /api/ai-insights/spending-patterns`. -/
def spendingPatternsRoute (authed : Bool) (txsResult : Except String (List Transaction))
    (respond : ChatOracle) : Response × List ChatRequest :=
  if authed then
    match txsResult with
    | .error _ => ({ status := 500, body := jsonMessage "Failed to detect spending patterns" }, [])
    | .ok transactions =>
        let r := detectSpendingPatterns transactions respond
        match r.1 with
        | none =>
            ({ status := 200,
               body := jsonMessage "Not enough transaction data to detect spending patterns" }, r.2)
        | some ps => ({ status := 200, body := .arr (ps.map encodeSpendingPattern) }, r.2)
  else (unauthorizedResponse, [])

/-- `GET /api/dashboard`: current-month sums via a `forEach` over the
month's transactions. -/
def dashboardRoute (authed : Bool) (st : MemStorage) (userId : Nat) (now : JsDate) :
    Response :=
  if authed then
    let transactions := (st.getTransactionsByMonth userId now.getFullYear now.getMonth).1
    let sums := transactions.foldl
      (fun acc t => if t.isIncome then (acc.1 + t.amount, acc.2) else (acc.1, acc.2 + t.amount))
      ((0 : Int), (0 : Int))
    let balance := sums.1 - sums.2
    { status := 200,
      body := .obj [("balance", .num (JsNumber.ofInt balance)),
                    ("income", .num (JsNumber.ofInt sums.1)),
                    ("expenses", .num (JsNumber.ofInt sums.2)),
                    ("transactionCount", .num (JsNumber.ofInt (transactions.length : Int)))] }
  else unauthorizedResponse

/-! ## Auxiliary notions used by the verified statements -/

/-- The id-freshness invariant of `MemStorage`: every stored key is below
the corresponding counter, and keys are pairwise distinct. -/
def StorageInvariant (st : MemStorage) : Prop :=
  (∀ p ∈ st.users, p.1 < st.currentUserId) ∧
  (st.users.map Prod.fst).Nodup ∧
  (∀ p ∈ st.transactions, p.1 < st.currentTransactionId) ∧
  (st.transactions.map Prod.fst).Nodup

/-- The amounts a grouping associates with a category (`[]` when the
category is absent). -/
def groupLookup (g : List (String × List JsNumber)) (c : String) : List JsNumber :=
  ((g.find? (fun p => p.1 = c)).map (fun p => p.2)).getD []

/-- Well-formedness of a `JsNumber`: a positive denominator.  Every value
the program computes is well-formed. -/
def JsNumber.WF (a : JsNumber) : Prop := 0 < a.den

/-- Sum of a list of `JsNumber`s the way `reduce((sum, x) => sum + x, 0)`
computes it. -/
def jsSum (l : List JsNumber) : JsNumber := l.foldl JsNumber.add (JsNumber.ofInt 0)

/-! ## Concrete sample data for the counterexamples and witnesses -/

/-- A sample expense transaction (`day` counts days since the epoch). -/
def sampleTx (id : Nat) (amountCents : Int) (cat : String) (day : Nat) : Transaction :=
  { id := id, userId := 1, amount := amountCents, category := cat,
    description := some "monthly bill", date := ⟨(day : Int) * 86400000⟩,
    isIncome := false }

/-- Five expense transactions — enough for the three 5-minimum
generators, not for the two 10-minimum detectors. -/
def fiveTxs : List Transaction :=
  [sampleTx 1 100 "Food" 19000, sampleTx 2 200 "Food" 19001,
   sampleTx 3 300 "Rent" 19002, sampleTx 4 400 "Food" 19003,
   sampleTx 5 500 "Rent" 19004]

/-- Ten expense transactions in two categories. -/
def tenTxs : List Transaction :=
  [sampleTx 1 100 "Food" 19000, sampleTx 2 200 "Food" 19001,
   sampleTx 3 300 "Food" 19002, sampleTx 4 400 "Food" 19003,
   sampleTx 5 500 "Food" 19004, sampleTx 6 600 "Food" 19005,
   sampleTx 7 100 "Rent" 19006, sampleTx 8 200 "Rent" 19007,
   sampleTx 9 300 "Rent" 19008, sampleTx 10 500 "Rent" 19009]

/-- An oracle whose every reply parses to the empty JSON object. -/
def emptyObjOracle : ChatOracle := fun _ => .ok (.obj [])

/-- An oracle on which every call-out throws. -/
def errOracle : ChatOracle := fun _ => .error "OpenAI request failed"

/-- An oracle replying with a `suggestions` array holding one empty
object. -/
def suggestionsOracle : ChatOracle :=
  fun _ => .ok (.obj [("suggestions", .arr [.obj []])])

/-- An oracle replying with a `billReminders` array holding one empty
object. -/
def billsOracle : ChatOracle :=
  fun _ => .ok (.obj [("billReminders", .arr [.obj []])])

/-- An oracle replying with a `patterns` array holding one empty
object. -/
def patternsOracle : ChatOracle :=
  fun _ => .ok (.obj [("patterns", .arr [.obj []])])

/-! ## Shared helper lemmas -/

theorem any_key_eq_false {α : Type} {m : List (Nat × α)} {k : Nat}
    (h : ∀ p ∈ m, p.1 < k) : m.any (fun p => p.1 = k) = false := by
  rw [List.any_eq_false]
  intro p hp
  simpa using Nat.ne_of_lt (h p hp)

theorem find?_key_eq_none {α : Type} {m : List (Nat × α)} {k : Nat}
    (h : m.any (fun p => p.1 = k) = false) :
    m.find? (fun p => p.1 = k) = none := by
  rw [List.find?_eq_none]
  rw [List.any_eq_false] at h
  exact h

theorem find?_set_self {α : Type} (m : List (Nat × α)) (k : Nat) (v : α)
    (h : m.any (fun p => p.1 = k) = true) :
    (m.map (fun p => if p.1 = k then (k, v) else p)).find? (fun p => p.1 = k) =
      some (k, v) := by
  induction m with
  | nil => simp at h
  | cons p rest ih =>
      by_cases hk : p.1 = k
      · rw [List.map_cons, if_pos hk, List.find?_cons_of_pos]
        simp
  
      · have h' : rest.any (fun p => p.1 = k) = true := by
          rw [List.any_cons] at h
          simpa [hk] using h
        rw [List.map_cons, if_neg hk, List.find?_cons_of_neg _ (by simpa using hk)]
        exact ih h'

theorem find?_set_ne {α : Type} (m : List (Nat × α)) (k k' : Nat) (v : α)
    (h : k' ≠ k) :
    (m.map (fun p => if p.1 = k then (k, v) else p)).find? (fun p => p.1 = k') =
      m.find? (fun p => p.1 = k') := by
  induction m with
  | nil => rfl
  | cons p rest ih =>
      by_cases hk : p.1 = k
      · rw [List.map_cons, if_pos hk,
            List.find?_cons_of_neg _ (by simpa using Ne.symm h),
            List.find?_cons_of_neg _ (by simp [hk]; omega)]
        exact ih
      · by_cases hk' : p.1 = k'
        · rw [List.map_cons, if_neg hk, List.find?_cons_of_pos _ (by simpa using hk'),
              List.find?_cons_of_pos _ (by simpa using hk')]
        · rw [List.map_cons, if_neg hk, List.find?_cons_of_neg _ (by simpa using hk'),
              List.find?_cons_of_neg _ (by simpa using hk')]
          exact ih

theorem jsMapGet_set_self {α : Type} (m : List (Nat × α)) (k : Nat) (v : α) :
    jsMapGet (jsMapSet m k v) k = some v := by
  unfold jsMapSet jsMapGet
  by_cases h : m.any (fun p => p.1 = k)
  · rw [if_pos h, find?_set_self m k v h]
    rfl
  · have hf : m.any (fun p => p.1 = k) = false := Bool.eq_false_iff.mpr h
    rw [if_neg h, List.find?_append, find?_key_eq_none hf]
    simp

theorem jsMapGet_set_ne {α : Type} (m : List (Nat × α)) (k k' : Nat) (v : α)
    (h : k' ≠ k) : jsMapGet (jsMapSet m k v) k' = jsMapGet m k' := by
  unfold jsMapSet jsMapGet
  by_cases hm : m.any (fun p => p.1 = k)
  · rw [if_pos hm, find?_set_ne m k k' v h]
  · rw [if_neg hm, List.find?_append]
    have : List.find? (fun p => p.1 = k') [(k, v)] = none := by
      simp [List.find?, Ne.symm h]
    rw [this]
    simp

theorem jsMapSet_fresh {α : Type} (m : List (Nat × α)) (k : Nat) (v : α)
    (h : m.any (fun p => p.1 = k) = false) : jsMapSet m k v = m ++ [(k, v)] := by
  unfold jsMapSet
  simp [h]

theorem jsMapGet_none_of_any_false {α : Type} {m : List (Nat × α)} {k : Nat}
    (h : m.any (fun p => p.1 = k) = false) : jsMapGet m k = none := by
  unfold jsMapGet
  rw [find?_key_eq_none h]
  rfl

/-- C7: `createTransaction` writes exactly one transactions entry (at the
assigned id, last write wins) leaving the users map, the id counter for
users and every other transactions entry unchanged; `createUser` is
symmetric; the four read operations return the store unchanged. -/
theorem storage_frame_conditions :
    (∀ (st : MemStorage) (data : InsertTransaction) (userId : Nat) (now : JsDate),
      (st.createTransaction data userId now).2.users = st.users ∧
      (st.createTransaction data userId now).2.currentUserId = st.currentUserId ∧
      jsMapGet (st.createTransaction data userId now).2.transactions
          (st.createTransaction data userId now).1.id =
        some (st.createTransaction data userId now).1 ∧
      (∀ k, k ≠ (st.createTransaction data userId now).1.id →
        jsMapGet (st.createTransaction data userId now).2.transactions k =
          jsMapGet st.transactions k)) ∧
    (∀ (st : MemStorage) (u : InsertUser),
      (st.createUser u).2.transactions = st.transactions ∧
      (st.createUser u).2.currentTransactionId = st.currentTransactionId ∧
      jsMapGet (st.createUser u).2.users (st.createUser u).1.id =
        some (st.createUser u).1 ∧
      (∀ k, k ≠ (st.createUser u).1.id →
        jsMapGet (st.createUser u).2.users k = jsMapGet st.users k)) ∧
    (∀ st id, (MemStorage.getUser st id).2 = st) ∧
    (∀ st name, (MemStorage.getUserByUsername st name).2 = st) ∧
    (∀ st uid, (MemStorage.getTransactions st uid).2 = st) ∧
    (∀ st uid y m, (MemStorage.getTransactionsByMonth st uid y m).2 = st) := by
  refine ⟨?_, ?_, fun _ _ => rfl, fun _ _ => rfl, fun _ _ => rfl, fun _ _ _ _ => rfl⟩
  · intro st data userId now
    refine ⟨rfl, rfl, jsMapGet_set_self _ _ _, fun k hk => jsMapGet_set_ne _ _ _ _ hk⟩
  · intro st u
    refine ⟨rfl, rfl, jsMapGet_set_self _ _ _, fun k hk => jsMapGet_set_ne _ _ _ _ hk⟩

/-- Witness for `storage_frame_conditions` at a concrete store, input and
key. -/
theorem storage_frame_conditions_witness :
    jsMapGet ((MemStorage.empty.createTransaction
        ⟨500, "Food", some "lunch", none, false⟩ 1 ⟨0⟩).2).transactions 2 =
      jsMapGet MemStorage.empty.transactions 2 :=
  (storage_frame_conditions.1 MemStorage.empty
    ⟨500, "Food", some "lunch", none, false⟩ 1 ⟨0⟩).2.2.2 2 (by decide)

/-- C8: the id-freshness invariant holds for a fresh store and is
preserved by `createUser` and `createTransaction`; under it, each create
call's id is absent from the map beforehand, so the `Map.set` appends a
new entry and never overwrites. -/
theorem storage_id_invariant :
    StorageInvariant MemStorage.empty ∧
    (∀ (st : MemStorage) (u : InsertUser), StorageInvariant st →
      StorageInvariant (st.createUser u).2 ∧
      jsMapGet st.users (st.createUser u).1.id = none ∧
      (st.createUser u).2.users =
        st.users ++ [((st.createUser u).1.id, (st.createUser u).1)]) ∧
    (∀ (st : MemStorage) (data : InsertTransaction) (userId : Nat) (now : JsDate),
      StorageInvariant st →
      StorageInvariant (st.createTransaction data userId now).2 ∧
      jsMapGet st.transactions (st.createTransaction data userId now).1.id = none ∧
      (st.createTransaction data userId now).2.transactions =
        st.transactions ++
          [((st.createTransaction data userId now).1.id,
            (st.createTransaction data userId now).1)]) := by
  refine ⟨⟨by simp [MemStorage.empty], by simp [MemStorage.empty],
    by simp [MemStorage.empty], by simp [MemStorage.empty]⟩, ?_, ?_⟩
  · intro st u hinv
    obtain ⟨hu, hnu, ht, hnt⟩ := hinv
    have hany : st.users.any (fun p => p.1 = st.currentUserId) = false :=
      any_key_eq_false hu
    have hset := jsMapSet_fresh st.users st.currentUserId (st.createUser u).1 hany
    refine ⟨⟨?_, ?_, ht, hnt⟩, jsMapGet_none_of_any_false hany, hset⟩
    · intro p hp
      show p.1 < st.currentUserId + 1
      have hp' : p ∈ jsMapSet st.users st.currentUserId (st.createUser u).1 := hp
      rw [hset] at hp'
      rcases List.mem_append.mp hp' with h' | h'
      · exact Nat.lt_succ_of_lt (hu p h')
      · simp at h'
        rw [h']
        exact Nat.lt_succ_self _
    · show ((jsMapSet st.users st.currentUserId (st.createUser u).1).map Prod.fst).Nodup
      rw [hset, List.map_append, List.nodup_append]
      refine ⟨hnu, by simp, ?_⟩
      intro k hk hk'
      simp at hk'
      obtain ⟨w, hw⟩ := List.mem_map.mp hk
      have := hu w hw.1
      omega
  · intro st data userId now hinv
    obtain ⟨hu, hnu, ht, hnt⟩ := hinv
    have hany : st.transactions.any (fun p => p.1 = st.currentTransactionId) = false :=
      any_key_eq_false ht
    have hset := jsMapSet_fresh st.transactions st.currentTransactionId
      (st.createTransaction data userId now).1 hany
    refine ⟨⟨hu, hnu, ?_, ?_⟩, jsMapGet_none_of_any_false hany, hset⟩
    · intro p hp
      show p.1 < st.currentTransactionId + 1
      have hp' : p ∈ jsMapSet st.transactions st.currentTransactionId
        (st.createTransaction data userId now).1 := hp
      rw [hset] at hp'
      rcases List.mem_append.mp hp' with h' | h'
      · exact Nat.lt_succ_of_lt (ht p h')
      · simp at h'
        rw [h']
        exact Nat.lt_succ_self _
    · show ((jsMapSet st.transactions st.currentTransactionId
        (st.createTransaction data userId now).1).map Prod.fst).Nodup
      rw [hset, List.map_append, List.nodup_append]
      refine ⟨hnt, by simp, ?_⟩
      intro k hk hk'
      simp at hk'
      obtain ⟨w, hw⟩ := List.mem_map.mp hk
      have := ht w hw.1
      omega

/-- Witness for `storage_id_invariant`: the invariant is preserved across
a concrete `createUser` followed by a concrete `createTransaction`. -/
theorem storage_id_invariant_witness :
    StorageInvariant ((MemStorage.empty.createUser ⟨"alice", "pw"⟩).2.createTransaction
      ⟨500, "Food", some "lunch", none, false⟩ 1 ⟨0⟩).2 :=
  (storage_id_invariant.2.2 (MemStorage.empty.createUser ⟨"alice", "pw"⟩).2
    ⟨500, "Food", some "lunch", none, false⟩ 1 ⟨0⟩
    ((storage_id_invariant.2.1 MemStorage.empty ⟨"alice", "pw"⟩
      storage_id_invariant.1).1)).1

theorem txTimeDescLe_trans : ∀ a b c : Transaction,
    txTimeDescLe a b = true → txTimeDescLe b c = true → txTimeDescLe a c = true := by
  intro a b c hab hbc
  simp only [txTimeDescLe, decide_eq_true_eq] at *
  omega

theorem txTimeDescLe_total : ∀ a b : Transaction,
    (txTimeDescLe a b || txTimeDescLe b a) = true := by
  intro a b
  simp only [txTimeDescLe, Bool.or_eq_true, decide_eq_true_eq]
  omega

/-- C10: `getTransactions` returns exactly the stored transactions with
the given `userId` (as a permutation of the filtered map values), newest
first; `getTransactionsByMonth` additionally restricts to the given year
and zero-based month, with the same ordering. -/
theorem getTransactions_filter_sort :
    ∀ (st : MemStorage) (userId : Nat) (year month : Int),
      ((MemStorage.getTransactions st userId).1.Perm
        ((jsMapValues st.transactions).filter (fun t => t.userId = userId)) ∧
       (∀ t, t ∈ (MemStorage.getTransactions st userId).1 ↔
          (t ∈ jsMapValues st.transactions ∧ t.userId = userId)) ∧
       (MemStorage.getTransactions st userId).1.Pairwise
         (fun a b => b.date.ms ≤ a.date.ms)) ∧
      ((MemStorage.getTransactionsByMonth st userId year month).1.Perm
        ((jsMapValues st.transactions).filter
          (fun t => t.userId = userId ∧ t.date.getFullYear = year ∧
            t.date.getMonth = month)) ∧
       (∀ t, t ∈ (MemStorage.getTransactionsByMonth st userId year month).1 ↔
          (t ∈ jsMapValues st.transactions ∧ t.userId = userId ∧
            t.date.getFullYear = year ∧ t.date.getMonth = month)) ∧
       (MemStorage.getTransactionsByMonth st userId year month).1.Pairwise
         (fun a b => b.date.ms ≤ a.date.ms)) := by
  intro st userId year month
  constructor
  · refine ⟨List.mergeSort_perm _ _, ?_, ?_⟩
    · intro t
      show t ∈ ((jsMapValues st.transactions).filter
        (fun t => t.userId = userId)).mergeSort txTimeDescLe ↔ _
      rw [(List.mergeSort_perm _ txTimeDescLe).mem_iff, List.mem_filter]
      simp
    · have := List.sorted_mergeSort txTimeDescLe_trans txTimeDescLe_total
        ((jsMapValues st.transactions).filter (fun t => t.userId = userId))
      exact this.imp (fun h => by simpa [txTimeDescLe] using h)
  · refine ⟨List.mergeSort_perm _ _, ?_, ?_⟩
    · intro t
      show t ∈ ((jsMapValues st.transactions).filter
        (fun t => t.userId = userId ∧ t.date.getFullYear = year ∧
          t.date.getMonth = month)).mergeSort txTimeDescLe ↔ _
      rw [(List.mergeSort_perm _ txTimeDescLe).mem_iff, List.mem_filter]
      simp [and_assoc]
    · have := List.sorted_mergeSort txTimeDescLe_trans txTimeDescLe_total
        ((jsMapValues st.transactions).filter
          (fun t => t.userId = userId ∧ t.date.getFullYear = year ∧
            t.date.getMonth = month))
      exact this.imp (fun h => by simpa [txTimeDescLe] using h)

theorem dashboard_foldl (l : List Transaction) (a b : Int) :
    l.foldl
      (fun acc t =>
        if t.isIncome then (acc.1 + t.amount, acc.2) else (acc.1, acc.2 + t.amount))
      (a, b) =
    (a + ((l.filter (fun t => t.isIncome)).map (fun t => t.amount)).sum,
     b + ((l.filter (fun t => !t.isIncome)).map (fun t => t.amount)).sum) := by
  induction l generalizing a b with
  | nil => simp
  | cons t rest ih =>
      by_cases h : t.isIncome <;>
        simp [h, ih, List.filter_cons, add_assoc]

/-- C5: the dashboard response reports `income` as the sum of the user's
current-month income amounts, `expenses` as the sum of the current-month
expense amounts, `balance = income - expenses` and `transactionCount` as
the number of current-month transactions. -/
theorem dashboard_reports_month_sums :
    ∀ (st : MemStorage) (userId : Nat) (now : JsDate),
      dashboardRoute true st userId now =
        { status := 200,
          body := .obj
            [("balance", .num (JsNumber.ofInt
                (((((jsMapValues st.transactions).filter
                    (fun t => t.userId = userId ∧ t.date.getFullYear = now.getFullYear ∧
                      t.date.getMonth = now.getMonth)).filter (fun t => t.isIncome)).map
                  (fun t => t.amount)).sum -
                ((((jsMapValues st.transactions).filter
                    (fun t => t.userId = userId ∧ t.date.getFullYear = now.getFullYear ∧
                      t.date.getMonth = now.getMonth)).filter (fun t => !t.isIncome)).map
                  (fun t => t.amount)).sum))),
             ("income", .num (JsNumber.ofInt
                ((((jsMapValues st.transactions).filter
                    (fun t => t.userId = userId ∧ t.date.getFullYear = now.getFullYear ∧
                      t.date.getMonth = now.getMonth)).filter (fun t => t.isIncome)).map
                  (fun t => t.amount)).sum)),
             ("expenses", .num (JsNumber.ofInt
                ((((jsMapValues st.transactions).filter
                    (fun t => t.userId = userId ∧ t.date.getFullYear = now.getFullYear ∧
                      t.date.getMonth = now.getMonth)).filter (fun t => !t.isIncome)).map
                  (fun t => t.amount)).sum)),
             ("transactionCount", .num (JsNumber.ofInt
                (((jsMapValues st.transactions).filter
                    (fun t => t.userId = userId ∧ t.date.getFullYear = now.getFullYear ∧
                      t.date.getMonth = now.getMonth)).length : Int)))] } := by
  intro st userId now
  have hperm : (MemStorage.getTransactionsByMonth st userId now.getFullYear now.getMonth).1.Perm
      ((jsMapValues st.transactions).filter
        (fun t => t.userId = userId ∧ t.date.getFullYear = now.getFullYear ∧
          t.date.getMonth = now.getMonth)) :=
    List.mergeSort_perm _ _
  have hinc := (((hperm.filter (fun t => t.isIncome)).map (fun t => t.amount)).sum_eq :)
  have hexp := (((hperm.filter (fun t => !t.isIncome)).map (fun t => t.amount)).sum_eq :)
  have hlen := (hperm.length_eq :)
  have hsums := dashboard_foldl
    (MemStorage.getTransactionsByMonth st userId now.getFullYear now.getMonth).1 0 0
  rw [hinc, hexp] at hsums
  unfold dashboardRoute
  rw [if_pos rfl]
  simp only [hsums, hlen]
  simp

theorem generateSpendingForecast_calls (txs : List Transaction) (respond : ChatOracle)
    (h : ¬ txs.length < 5) :
    (generateSpendingForecast txs respond).2 = [forecastRequest txs] := by
  unfold generateSpendingForecast
  rw [if_neg h]
  cases hr : respond (forecastRequest txs) <;> simp [hr]

theorem generateBudgetSuggestions_calls (txs : List Transaction) (respond : ChatOracle)
    (h : ¬ txs.length < 5) :
    (generateBudgetSuggestions txs respond).2 = [budgetRequest txs] := by
  unfold generateBudgetSuggestions
  rw [if_neg h]
  cases hr : respond (budgetRequest txs) with
  | error e => simp [hr]
  | ok r => cases hf : r.field "suggestions" <;> simp [hr, hf]

theorem generateSavingsGoal_calls (txs : List Transaction) (ta : Option JsNumber)
    (respond : ChatOracle) (h : ¬ txs.length < 5) :
    (generateSavingsGoal txs ta respond).2 =
      [savingsRequest txs (savingsGoalAmount ta)] := by
  unfold generateSavingsGoal
  rw [if_neg h]
  cases hr : respond (savingsRequest txs (savingsGoalAmount ta)) <;> simp [hr]

theorem detectBillReminders_calls (txs : List Transaction) (respond : ChatOracle)
    (h : ¬ txs.length < 10) :
    (detectBillReminders txs respond).2 = [billsRequest txs] := by
  unfold detectBillReminders
  rw [if_neg h]
  cases hr : respond (billsRequest txs) with
  | error e => simp [hr]
  | ok r => cases hf : r.field "billReminders" <;> simp [hr, hf]

theorem detectSpendingPatterns_calls (txs : List Transaction) (respond : ChatOracle)
    (h : ¬ txs.length < 10) :
    (detectSpendingPatterns txs respond).2 = [patternsRequest txs] := by
  unfold detectSpendingPatterns
  rw [if_neg h]
  cases hr : respond (patternsRequest txs) with
  | error e => simp [hr]
  | ok r => cases hf : r.field "patterns" <;> simp [hr, hf]

/-- C1: with fewer than 5 transactions the forecast, budget and savings
generators return `null` without issuing any call-out; with fewer than 10
the bill and pattern detectors do; and `GET /api/ai-insights` with fewer
than 5 stored transactions answers the fixed message without invoking any
generator (no call-out is made). -/
theorem insufficient_data_short_circuits :
    ∀ (txs : List Transaction) (respond : ChatOracle) (ta : Option JsNumber),
      (txs.length < 5 →
        generateSpendingForecast txs respond = (none, []) ∧
        generateBudgetSuggestions txs respond = (none, []) ∧
        generateSavingsGoal txs ta respond = (none, []) ∧
        aiInsightsRoute true (.ok txs) respond =
          ({ status := 200,
             body := jsonMessage
               "Add more transactions to receive AI-powered financial insights" }, [])) ∧
      (txs.length < 10 →
        detectBillReminders txs respond = (none, []) ∧
        detectSpendingPatterns txs respond = (none, [])) := by
  intro txs respond ta
  constructor
  · intro h
    refine ⟨?_, ?_, ?_, ?_⟩
    · unfold generateSpendingForecast
      rw [if_pos h]
    · unfold generateBudgetSuggestions
      rw [if_pos h]
    · unfold generateSavingsGoal
      rw [if_pos h]
    · unfold aiInsightsRoute
      rw [if_pos rfl]
      simp [h]
  · intro h
    constructor
    · unfold detectBillReminders
      rw [if_pos h]
    · unfold detectSpendingPatterns
      rw [if_pos h]

/-- Witness for `insufficient_data_short_circuits` at a concrete
three-transaction list. -/
theorem insufficient_data_short_circuits_witness :
    generateSpendingForecast (fiveTxs.take 3) emptyObjOracle = (none, []) ∧
    detectBillReminders fiveTxs emptyObjOracle = (none, []) :=
  ⟨((insufficient_data_short_circuits (fiveTxs.take 3) emptyObjOracle none).1
      (by decide)).1,
   ((insufficient_data_short_circuits fiveTxs emptyObjOracle none).2 (by decide)).1⟩

/-- C2 (amended): serving `GET /api/ai-insights` for a user with `n ≥ 5`
stored transactions issues one chat-completion call per eligible
generator: exactly 3 when `5 ≤ n < 10` and exactly 5 when `n ≥ 10` — not
exactly one. -/
theorem aiInsights_call_count :
    ∀ (txs : List Transaction) (respond : ChatOracle), 5 ≤ txs.length →
      (aiInsightsRoute true (.ok txs) respond).2.length =
        if txs.length < 10 then 3 else 5 := by
  intro txs respond h
  have h5 : ¬ txs.length < 5 := by omega
  unfold aiInsightsRoute
  rw [if_pos rfl]
  simp only [h5, if_false]
  show (generateAllInsights txs respond).2.length = _
  unfold generateAllInsights
  have hgoal := generateSavingsGoal_calls txs none respond h5
  by_cases h10 : txs.length < 10
  · have hb : detectBillReminders txs respond = (none, []) := by
      unfold detectBillReminders
      rw [if_pos h10]
    have hp : detectSpendingPatterns txs respond = (none, []) := by
      unfold detectSpendingPatterns
      rw [if_pos h10]
    simp [generateSpendingForecast_calls txs respond h5,
      generateBudgetSuggestions_calls txs respond h5, hgoal, hb, hp, h10]
  · simp [generateSpendingForecast_calls txs respond h5,
      generateBudgetSuggestions_calls txs respond h5, hgoal,
      detectBillReminders_calls txs respond h10,
      detectSpendingPatterns_calls txs respond h10, h10]

/-- Witness for `aiInsights_call_count` at concrete 5- and
10-transaction stores. -/
theorem aiInsights_call_count_witness :
    (aiInsightsRoute true (.ok fiveTxs) emptyObjOracle).2.length = 3 ∧
    (aiInsightsRoute true (.ok tenTxs) emptyObjOracle).2.length = 5 := by
  constructor
  · have := aiInsights_call_count fiveTxs emptyObjOracle (by decide)
    simpa using this
  · have := aiInsights_call_count tenTxs emptyObjOracle (by decide)
    simpa using this

/-- C2 counterexample: a request with exactly 5 stored transactions makes
3 external call-outs, not one. -/
theorem aiInsights_not_single_call :
    5 ≤ fiveTxs.length ∧
    ¬ (aiInsightsRoute true (.ok fiveTxs) emptyObjOracle).2.length = 1 := by
  constructor
  · decide
  · decide

/-- C6: every transactions / insights / ai-insights / dashboard route
short-circuits to `401 {"message": "Unauthorized"}` when the session is
not authenticated — leaving the store untouched and issuing no call-out —
and runs its handler when it is. -/
theorem auth_gate :
    (∀ txsResult, getTransactionsRoute false txsResult = .ok unauthorizedResponse) ∧
    (∀ st userId parsedBody now,
      postTransactionRoute false st userId parsedBody now = (unauthorizedResponse, st)) ∧
    (∀ st userId year month,
      transactionsByMonthRoute false st userId year month = unauthorizedResponse) ∧
    (∀ st userId now tipIndex,
      insightsRoute false st userId now tipIndex = unauthorizedResponse) ∧
    (∀ txsResult respond,
      aiInsightsRoute false txsResult respond = (unauthorizedResponse, [])) ∧
    (∀ txsResult respond,
      spendingForecastRoute false txsResult respond = (unauthorizedResponse, [])) ∧
    (∀ txsResult respond,
      budgetSuggestionsRoute false txsResult respond = (unauthorizedResponse, [])) ∧
    (∀ txsResult ta respond,
      savingsGoalsRoute false txsResult ta respond = (unauthorizedResponse, [])) ∧
    (∀ txsResult respond,
      billRemindersRoute false txsResult respond = (unauthorizedResponse, [])) ∧
    (∀ txsResult respond,
      spendingPatternsRoute false txsResult respond = (unauthorizedResponse, [])) ∧
    (∀ st userId now, dashboardRoute false st userId now = unauthorizedResponse) ∧
    (∀ st userId data now,
      postTransactionRoute true st userId (.ok data) now =
        ({ status := 201,
           body := encodeTransaction (st.createTransaction data userId now).1 },
         (st.createTransaction data userId now).2)) ∧
    (∀ txs, getTransactionsRoute true (.ok txs) =
      .ok { status := 200, body := .arr (txs.map encodeTransaction) }) ∧
    (∀ st userId now, (dashboardRoute true st userId now).status = 200) := by
  refine ⟨fun _ => rfl, fun _ _ _ _ => rfl, fun _ _ _ _ => rfl, fun _ _ _ _ => rfl,
    fun _ _ => rfl, fun _ _ => rfl, fun _ _ => rfl, fun _ _ _ => rfl,
    fun _ _ => rfl, fun _ _ => rfl, fun _ _ _ => rfl, fun _ _ _ _ => rfl,
    fun _ => rfl, fun _ _ _ => rfl⟩

/-- C3 (amended): a thrown storage error maps to `500` with a JSON
message in the routes that wrap their handler in `try/catch`, and a Zod
validation failure on `POST /api/transactions` maps to `400` with the
error list; but an error thrown *inside* an AI generator is caught by the
generator itself, which returns `null`, so the route answers `200` with a
"not enough transaction data" message; and `GET /api/transactions` has no
`catch` at all, so a thrown storage error propagates unanswered. -/
theorem error_to_http_mapping :
    (∀ st userId errs now,
      postTransactionRoute true st userId (.error (.zodError errs)) now =
        ({ status := 400, body := .obj [("message", .arr (errs.map Json.str))] }, st)) ∧
    (∀ st userId msg now,
      postTransactionRoute true st userId (.error (.otherError msg)) now =
        ({ status := 500, body := jsonMessage "Failed to create transaction" }, st)) ∧
    (∀ e respond, aiInsightsRoute true (.error e) respond =
      ({ status := 500,
         body := .obj [("message", .str "Failed to generate AI insights"),
                       ("error", .str e)] }, [])) ∧
    (∀ e respond, spendingForecastRoute true (.error e) respond =
      ({ status := 500, body := jsonMessage "Failed to generate spending forecast" }, [])) ∧
    (∀ e respond, budgetSuggestionsRoute true (.error e) respond =
      ({ status := 500, body := jsonMessage "Failed to generate budget suggestions" }, [])) ∧
    (∀ e ta respond, savingsGoalsRoute true (.error e) ta respond =
      ({ status := 500, body := jsonMessage "Failed to generate savings goal" }, [])) ∧
    (∀ e respond, billRemindersRoute true (.error e) respond =
      ({ status := 500, body := jsonMessage "Failed to generate bill reminders" }, [])) ∧
    (∀ e respond, spendingPatternsRoute true (.error e) respond =
      ({ status := 500, body := jsonMessage "Failed to detect spending patterns" }, [])) ∧
    (∀ e, getTransactionsRoute true (.error e) = .error e) ∧
    (∀ txs, 5 ≤ txs.length →
      spendingForecastRoute true (.ok txs) errOracle =
        ({ status := 200,
           body := jsonMessage "Not enough transaction data to generate a spending forecast" },
         [forecastRequest txs])) := by
  refine ⟨fun _ _ _ _ => rfl, fun _ _ _ _ => rfl, fun _ _ => rfl, fun _ _ => rfl,
    fun _ _ => rfl, fun _ _ _ => rfl, fun _ _ => rfl, fun _ _ => rfl,
    fun _ => rfl, ?_⟩
  intro txs h
  have h5 : ¬ txs.length < 5 := by omega
  have hgen : generateSpendingForecast txs errOracle = (none, [forecastRequest txs]) := by
    unfold generateSpendingForecast
    rw [if_neg h5]
    rfl
  unfold spendingForecastRoute
  rw [if_pos rfl]
  simp [hgen]

/-- Witness for `error_to_http_mapping` at a concrete 5-transaction
store. -/
theorem error_to_http_mapping_witness :
    spendingForecastRoute true (.ok fiveTxs) errOracle =
      ({ status := 200,
         body := jsonMessage "Not enough transaction data to generate a spending forecast" },
       [forecastRequest fiveTxs]) :=
  error_to_http_mapping.2.2.2.2.2.2.2.2.2 fiveTxs (by decide)

/-- C3 counterexample: with 5 stored transactions and a chat-completion
call that throws, `GET /api/ai-insights/spending-forecast` answers `200`
with the "not enough transaction data" message — not HTTP 500 as the
claim states. -/
theorem generator_error_not_500 :
    (spendingForecastRoute true (.ok fiveTxs) errOracle).1.status = 200 ∧
    (spendingForecastRoute true (.ok fiveTxs) errOracle).1.body =
      jsonMessage "Not enough transaction data to generate a spending forecast" ∧
    ¬ (spendingForecastRoute true (.ok fiveTxs) errOracle).1.status = 500 := by
  refine ⟨rfl, rfl, by decide⟩

/-- C9: the basic insights helper always resolves — also when a storage
fetch rejects — with a non-empty list of at most 3 insights: the single
welcome tip when the previous month is empty, the caught-error tip when a
fetch throws, otherwise the per-category insights truncated to the first
3, padded with one generic tip when no category qualifies. -/
theorem generateInsights_always_resolves :
    ∀ (currentFetch previousFetch : Except String (List Transaction)) (tipIndex : Fin 3),
      (generateInsightsCore currentFetch previousFetch tipIndex ≠ [] ∧
       (generateInsightsCore currentFetch previousFetch tipIndex).length ≤ 3) ∧
      (∀ e, currentFetch = .error e →
        generateInsightsCore currentFetch previousFetch tipIndex = [fallbackInsight]) ∧
      (∀ e, previousFetch = .error e →
        generateInsightsCore currentFetch previousFetch tipIndex = [fallbackInsight]) ∧
      (∀ curr, currentFetch = .ok curr → previousFetch = .ok [] →
        generateInsightsCore currentFetch previousFetch tipIndex = [welcomeInsight]) ∧
      (∀ curr prev, currentFetch = .ok curr → previousFetch = .ok prev → prev ≠ [] →
        categoryChangeInsights curr prev = [] →
        generateInsightsCore currentFetch previousFetch tipIndex =
          [genericTipInsight tipIndex.1]) ∧
      (∀ curr prev, currentFetch = .ok curr → previousFetch = .ok prev → prev ≠ [] →
        categoryChangeInsights curr prev ≠ [] →
        generateInsightsCore currentFetch previousFetch tipIndex =
          (categoryChangeInsights curr prev).take 3) := by
  intro cf pf tip
  refine ⟨?_, ?_, ?_, ?_, ?_, ?_⟩
  · cases cf with
    | error e => simp [generateInsightsCore]
    | ok curr =>
        cases pf with
        | error e => simp [generateInsightsCore]
        | ok prev =>
            by_cases hp : prev.length = 0
            · simp [generateInsightsCore, hp]
            · by_cases hi : (categoryChangeInsights curr prev).length = 0
              · simp [generateInsightsCore, hp, hi]
              · have hne : categoryChangeInsights curr prev ≠ [] := by
                  simpa [List.length_eq_zero] using hi
                constructor
                · simp [generateInsightsCore, hp, hi, List.take_eq_nil_iff, hne]
                · simp [generateInsightsCore, hp, hi, List.length_take]
  · intro e he
    rw [he]
    cases pf <;> rfl
  · intro e he
    rw [he]
    cases cf <;> rfl
  · intro curr h1 h2
    rw [h1, h2]
    rfl
  · intro curr prev h1 h2 hne hcc
    rw [h1, h2]
    have hlen : ¬ prev.length = 0 := by simpa [List.length_eq_zero] using hne
    simp [generateInsightsCore, hlen, hcc]
  · intro curr prev h1 h2 hne hcc
    rw [h1, h2]
    have hlen : ¬ prev.length = 0 := by simpa [List.length_eq_zero] using hne
    have hi : ¬ (categoryChangeInsights curr prev).length = 0 := by
      simpa [List.length_eq_zero] using hcc
    simp [generateInsightsCore, hlen, hi]

/-- Witness for `generateInsights_always_resolves`: the welcome tip on an
empty previous month and the caught-error tip on a rejected fetch. -/
theorem generateInsights_always_resolves_witness :
    generateInsightsCore (.ok []) (.ok []) 0 = [welcomeInsight] ∧
    generateInsightsCore (.error "storage unavailable") (.ok []) 0 = [fallbackInsight] :=
  ⟨(generateInsights_always_resolves (.ok []) (.ok []) 0).2.2.2.1 [] rfl rfl,
   (generateInsights_always_resolves (.error "storage unavailable") (.ok []) 0).2.1
     "storage unavailable" rfl⟩

theorem JsNumber.make_spec (n : Int) (d : Nat) (hd : 0 < d) :
    0 < (JsNumber.make n d).den ∧ (JsNumber.make n d).toRat = (n : ℚ) / (d : ℚ) := by
  unfold JsNumber.make
  have hg : Nat.gcd n.natAbs d ≠ 0 := by
    rw [Ne, Nat.gcd_eq_zero_iff]
    omega
  rw [if_neg hg]
  set g := Nat.gcd n.natAbs d with hgdef
  obtain ⟨c, hc⟩ : (g : Int) ∣ n :=
    dvd_trans (Int.natCast_dvd_natCast.mpr (Nat.gcd_dvd_left _ _))
      (Int.natAbs_dvd.mpr dvd_rfl)
  obtain ⟨e, he⟩ : g ∣ d := Nat.gcd_dvd_right _ _
  have hgpos : 0 < g := Nat.pos_of_ne_zero hg
  have hepos : 0 < e := by
    rcases Nat.eq_zero_or_pos e with h | h
    · subst h
      simp at he
      omega
    · exact h
  constructor
  · show 0 < d / g
    rw [he, Nat.mul_div_cancel_left _ hgpos]
    exact hepos
  · show JsNumber.toRat ⟨n / (g : Int), d / g⟩ = _
    unfold JsNumber.toRat
    simp only
    rw [hc, he, Int.mul_ediv_cancel_left _ (by exact_mod_cast hg),
        Nat.mul_div_cancel_left _ hgpos]
    push_cast
    rw [mul_div_mul_left _ _ (show ((g : ℕ) : ℚ) ≠ 0 from Nat.cast_ne_zero.mpr hg)]

theorem JsNumber.ofInt_toRat (n : Int) : (JsNumber.ofInt n).toRat = (n : ℚ) := by
  unfold JsNumber.ofInt JsNumber.toRat
  simp

theorem JsNumber.add_spec (a b : JsNumber) (ha : 0 < a.den) (hb : 0 < b.den) :
    0 < (a.add b).den ∧ (a.add b).toRat = a.toRat + b.toRat := by
  unfold JsNumber.add
  have hd : 0 < a.den * b.den := Nat.mul_pos ha hb
  obtain ⟨h1, h2⟩ := JsNumber.make_spec (a.num * (b.den : Int) + b.num * (a.den : Int))
    (a.den * b.den) hd
  refine ⟨h1, ?_⟩
  rw [h2]
  unfold JsNumber.toRat
  have ha' : ((a.den : ℕ) : ℚ) ≠ 0 := Nat.cast_ne_zero.mpr (by omega)
  have hb' : ((b.den : ℕ) : ℚ) ≠ 0 := Nat.cast_ne_zero.mpr (by omega)
  field_simp

theorem JsNumber.div_spec (a b : JsNumber) (ha : 0 < a.den) (hb : 0 < b.den)
    (hbn : b.num ≠ 0) :
    0 < (a.div b).den ∧ (a.div b).toRat = a.toRat / b.toRat := by
  unfold JsNumber.div
  rw [if_neg hbn]
  have hd : 0 < a.den * b.num.natAbs := Nat.mul_pos ha (Int.natAbs_pos.mpr hbn)
  obtain ⟨h1, h2⟩ := JsNumber.make_spec (a.num * (b.den : Int) * b.num.sign)
    (a.den * b.num.natAbs) hd
  refine ⟨h1, ?_⟩
  rw [h2]
  unfold JsNumber.toRat
  have ha' : ((a.den : ℕ) : ℚ) ≠ 0 := Nat.cast_ne_zero.mpr (by omega)
  have hb' : ((b.den : ℕ) : ℚ) ≠ 0 := Nat.cast_ne_zero.mpr (by omega)
  have hbq : (b.num : ℚ) ≠ 0 := Int.cast_ne_zero.mpr hbn
  have key := congrArg (fun z : Int => (z : ℚ)) (Int.sign_mul_natAbs b.num)
  push_cast at key
  rcases lt_trichotomy b.num 0 with hneg | hzero | hpos
  · rw [Int.sign_eq_neg_one_iff_neg.mpr hneg] at key
    have habs : |(b.num : ℚ)| = -(b.num : ℚ) := by
      push_cast at key
      linarith
    have habs' : ((b.num.natAbs : ℕ) : ℚ) = -(b.num : ℚ) := by
      rw [Int.cast_natAbs, Int.cast_abs]
      exact habs
    rw [Int.sign_eq_neg_one_iff_neg.mpr hneg]
    push_cast [habs, habs']
    field_simp
  · exact absurd hzero hbn
  · rw [Int.sign_eq_one_iff_pos.mpr hpos] at key
    have habs : |(b.num : ℚ)| = (b.num : ℚ) := by
      push_cast at key
      linarith
    have habs' : ((b.num.natAbs : ℕ) : ℚ) = (b.num : ℚ) := by
      rw [Int.cast_natAbs, Int.cast_abs]
      exact habs
    rw [Int.sign_eq_one_iff_pos.mpr hpos]
    push_cast [habs, habs']
    field_simp

theorem foldl_add_spec (l : List JsNumber) :
    ∀ acc : JsNumber, 0 < acc.den → (∀ x ∈ l, 0 < x.den) →
      0 < (l.foldl JsNumber.add acc).den ∧
      (l.foldl JsNumber.add acc).toRat = acc.toRat + (l.map JsNumber.toRat).sum := by
  induction l with
  | nil =>
      intro acc ha _
      exact ⟨ha, by simp⟩
  | cons x rest ih =>
      intro acc ha hall
      have hx : 0 < x.den := hall x (List.mem_cons_self _ _)
      obtain ⟨h1, h2⟩ := JsNumber.add_spec acc x ha hx
      obtain ⟨h3, h4⟩ := ih (acc.add x) h1 (fun y hy => hall y (List.mem_cons_of_mem _ hy))
      refine ⟨h3, ?_⟩
      rw [List.foldl_cons, h4, h2]
      simp [add_assoc]

theorem jsSum_spec (l : List JsNumber) (h : ∀ x ∈ l, 0 < x.den) :
    0 < (jsSum l).den ∧ (jsSum l).toRat = (l.map JsNumber.toRat).sum := by
  unfold jsSum
  obtain ⟨h1, h2⟩ := foldl_add_spec l (JsNumber.ofInt 0) Nat.one_pos h
  refine ⟨h1, ?_⟩
  rw [h2, JsNumber.ofInt_toRat]
  simp

theorem find?_key_eq_none_str {β : Type} {m : List (String × β)} {k : String}
    (h : m.any (fun p => p.1 = k) = false) :
    m.find? (fun p => p.1 = k) = none := by
  rw [List.find?_eq_none]
  rw [List.any_eq_false] at h
  exact h

theorem find?_bump_self (m : List (String × List JsNumber)) (c : String) (amt : JsNumber) :
    (m.map (fun p => if p.1 = c then (p.1, p.2 ++ [amt]) else p)).find? (fun p => p.1 = c) =
      (m.find? (fun p => p.1 = c)).map (fun p => (p.1, p.2 ++ [amt])) := by
  induction m with
  | nil => rfl
  | cons p rest ih =>
      by_cases hc : p.1 = c
      · rw [List.map_cons, if_pos hc, List.find?_cons_of_pos _ (by simpa using hc),
            List.find?_cons_of_pos _ (by simpa using hc)]
        rfl
      · rw [List.map_cons, if_neg hc, List.find?_cons_of_neg _ (by simpa using hc),
            List.find?_cons_of_neg _ (by simpa using hc)]
        exact ih

theorem find?_bump_ne (m : List (String × List JsNumber)) (c c' : String) (amt : JsNumber)
    (h : c' ≠ c) :
    (m.map (fun p => if p.1 = c then (p.1, p.2 ++ [amt]) else p)).find? (fun p => p.1 = c') =
      m.find? (fun p => p.1 = c') := by
  induction m with
  | nil => rfl
  | cons p rest ih =>
      by_cases hc : p.1 = c
      · rw [List.map_cons, if_pos hc,
            List.find?_cons_of_neg _ (by simp [hc]; exact fun hh => h hh.symm),
            List.find?_cons_of_neg _ (by simp [hc]; exact fun hh => h hh.symm)]
        exact ih
      · by_cases hc' : p.1 = c'
        · rw [List.map_cons, if_neg hc, List.find?_cons_of_pos _ (by simpa using hc'),
              List.find?_cons_of_pos _ (by simpa using hc')]
        · rw [List.map_cons, if_neg hc, List.find?_cons_of_neg _ (by simpa using hc'),
              List.find?_cons_of_neg _ (by simpa using hc')]
          exact ih

theorem groupLookup_step (acc : List (String × List JsNumber)) (cat : String)
    (amt : JsNumber) (c : String) :
    groupLookup
      (if acc.any (fun p => p.1 = cat) then
        acc.map (fun p => if p.1 = cat then (p.1, p.2 ++ [amt]) else p)
      else acc ++ [(cat, [amt])]) c =
    groupLookup acc c ++ (if cat = c then [amt] else []) := by
  by_cases hany : acc.any (fun p => p.1 = cat)
  · rw [if_pos hany]
    by_cases hc : cat = c
    · subst hc
      unfold groupLookup
      rw [find?_bump_self]
      cases hfind : acc.find? (fun p => p.1 = cat) with
      | none =>
          rw [List.find?_eq_none] at hfind
          obtain ⟨x, hx, hpx⟩ := List.any_eq_true.mp hany
          exact absurd hpx (hfind x hx)
      | some q => simp
  
    · unfold groupLookup
      rw [find?_bump_ne acc cat c amt (fun hh => hc hh.symm)]
      simp [hc]
  · have hanyf : acc.any (fun p => p.1 = cat) = false := Bool.eq_false_iff.mpr hany
    rw [if_neg hany]
    unfold groupLookup
    rw [List.find?_append]
    by_cases hc : cat = c
    · subst hc
      rw [find?_key_eq_none_str hanyf]
      simp [List.find?]
    · have : List.find? (fun p => p.1 = c) [(cat, [amt])] = none := by
        simp [List.find?, hc]
      rw [this]
      simp [hc]

theorem groupAmounts_go (l : List FormattedTx) :
    ∀ (acc : List (String × List JsNumber)) (c : String),
      groupLookup
        (l.foldl
          (fun acc t =>
            if acc.any (fun p => p.1 = t.category) then
              acc.map (fun p => if p.1 = t.category then (p.1, p.2 ++ [t.amount]) else p)
            else acc ++ [(t.category, [t.amount])])
          acc) c =
      groupLookup acc c ++ (l.filter (fun t => t.category = c)).map (fun t => t.amount) := by
  induction l with
  | nil =>
      intro acc c
      simp
  | cons t rest ih =>
      intro acc c
      rw [List.foldl_cons, ih, groupLookup_step acc t.category t.amount c]
      by_cases hc : t.category = c
      · simp [List.filter_cons, hc, List.append_assoc]
      · simp [List.filter_cons, hc]

/-- The central grouping fact: `byCategory[c]` is exactly the amounts of
the formatted transactions of category `c`, in order. -/
theorem groupAmounts_lookup (l : List FormattedTx) (c : String) :
    groupLookup (groupAmounts l) c =
      (l.filter (fun t => t.category = c)).map (fun t => t.amount) := by
  unfold groupAmounts
  rw [groupAmounts_go l [] c]
  simp [groupLookup]

theorem groupAmounts_keys_go (l : List FormattedTx) :
    ∀ (acc : List (String × List JsNumber)),
      (∀ c, c ∈ (l.foldl
          (fun acc t =>
            if acc.any (fun p => p.1 = t.category) then
              acc.map (fun p => if p.1 = t.category then (p.1, p.2 ++ [t.amount]) else p)
            else acc ++ [(t.category, [t.amount])])
          acc).map Prod.fst →
        c ∈ acc.map Prod.fst ∨ c ∈ l.map (fun t => t.category)) ∧
      ((acc.map Prod.fst).Nodup →
        ((l.foldl
          (fun acc t =>
            if acc.any (fun p => p.1 = t.category) then
              acc.map (fun p => if p.1 = t.category then (p.1, p.2 ++ [t.amount]) else p)
            else acc ++ [(t.category, [t.amount])])
          acc).map Prod.fst).Nodup) := by
  induction l with
  | nil => exact fun acc => ⟨fun c h => Or.inl h, id⟩
  | cons t rest ih =>
      intro acc
      have hkeys : ∀ amt : JsNumber,
          ((acc.map (fun p => if p.1 = t.category then (p.1, p.2 ++ [amt]) else p)).map
            Prod.fst) = acc.map Prod.fst := by
        intro amt
        rw [List.map_map]
        apply List.map_congr_left
        intro p _
        by_cases hc : p.1 = t.category <;> simp [hc]
      constructor
      · intro c hc
        rw [List.foldl_cons] at hc
        rcases (ih _).1 c hc with h | h
        · by_cases hany : acc.any (fun p => p.1 = t.category)
          · rw [if_pos hany, hkeys] at h
            exact Or.inl h
          · rw [if_neg hany, List.map_append] at h
            rcases List.mem_append.mp h with h' | h'
            · exact Or.inl h'
            · simp at h'
              subst h'
              exact Or.inr (by simp)
        · exact Or.inr (by simp [h])
      · intro hnd
        rw [List.foldl_cons]
        apply (ih _).2
        by_cases hany : acc.any (fun p => p.1 = t.category)
        · rw [if_pos hany, hkeys]
          exact hnd
        · have hanyf : acc.any (fun p => p.1 = t.category) = false :=
            Bool.eq_false_iff.mpr hany
          rw [if_neg hany, List.map_append, List.nodup_append]
          refine ⟨hnd, by simp, ?_⟩
          intro k hk hk'
          simp at hk'
          subst hk'
          rw [List.any_eq_false] at hanyf
          obtain ⟨p, hp, hp1⟩ := List.mem_map.mp hk
          exact hanyf p hp (by simpa using hp1)

theorem groupAmounts_keys_nodup (l : List FormattedTx) :
    ((groupAmounts l).map Prod.fst).Nodup := by
  unfold groupAmounts
  exact (groupAmounts_keys_go l []).2 (by simp)

theorem groupAmounts_keys_occur (l : List FormattedTx) (c : String)
    (h : c ∈ (groupAmounts l).map Prod.fst) : c ∈ l.map (fun t => t.category) := by
  unfold groupAmounts at h
  rcases (groupAmounts_keys_go l []).1 c h with h' | h'
  · simp at h'
  · exact h'

theorem find?_of_mem_nodup {β : Type} (m : List (String × β))
    (h : (m.map Prod.fst).Nodup) (c : String) (v : β) (hm : (c, v) ∈ m) :
    m.find? (fun p => p.1 = c) = some (c, v) := by
  induction m with
  | nil => simp at hm
  | cons p rest ih =>
      rcases List.mem_cons.mp hm with h' | h'
      · rw [← h']
        exact List.find?_cons_of_pos _ (by simp)
      · by_cases hc : p.1 = c
        · exfalso
          have hmem : c ∈ rest.map Prod.fst := List.mem_map.mpr ⟨(c, v), h', rfl⟩
          rw [List.map_cons] at h
          have hnd := List.nodup_cons.mp h
          rw [hc] at hnd
          exact hnd.1 hmem
        · rw [List.find?_cons_of_neg _ (by simpa using hc)]
          rw [List.map_cons] at h
          exact ih (List.nodup_cons.mp h).2 h'

theorem categoryTotals_mem (l : List FormattedTx)
    (hwf : ∀ t ∈ l, 0 < t.amount.den) :
    ∀ c total avg, (c, total, avg) ∈ categoryTotals (groupAmounts l) →
      (l.filter (fun t => t.category = c)) ≠ [] ∧
      total.toRat =
        (((l.filter (fun t => t.category = c)).map (fun t => t.amount)).map
          JsNumber.toRat).sum ∧
      avg.toRat = total.toRat / ((l.filter (fun t => t.category = c)).length : ℚ) := by
  intro c total avg hmem
  unfold categoryTotals at hmem
  obtain ⟨p, hpmem, heq⟩ := List.mem_map.mp hmem
  have hc : p.1 = c := congrArg (fun x : String × JsNumber × JsNumber => x.1) heq
  have htotal : jsSum p.2 = total :=
    congrArg (fun x : String × JsNumber × JsNumber => x.2.1) heq
  have havg : (jsSum p.2).div (JsNumber.ofInt (p.2.length : Int)) = avg :=
    congrArg (fun x : String × JsNumber × JsNumber => x.2.2) heq
  have hfind : (groupAmounts l).find? (fun q => q.1 = p.1) = some (p.1, p.2) :=
    find?_of_mem_nodup _ (groupAmounts_keys_nodup l) p.1 p.2 hpmem
  have hlook : groupLookup (groupAmounts l) p.1 = p.2 := by
    unfold groupLookup
    rw [hfind]
    rfl
  rw [groupAmounts_lookup l p.1] at hlook
  subst hc
  have hne : l.filter (fun t => t.category = p.1) ≠ [] := by
    intro hnil
    have hkey : p.1 ∈ (groupAmounts l).map Prod.fst :=
      List.mem_map.mpr ⟨(p.1, p.2), hpmem, rfl⟩
    obtain ⟨t, ht, htc⟩ := List.mem_map.mp (groupAmounts_keys_occur l p.1 hkey)
    have : t ∈ l.filter (fun q => q.category = p.1) :=
      List.mem_filter.mpr ⟨ht, by simpa using htc⟩
    rw [hnil] at this
    simp at this
  have hwf' : ∀ x ∈ p.2, 0 < x.den := by
    intro x hx
    rw [← hlook] at hx
    obtain ⟨t, ht, hta⟩ := List.mem_map.mp hx
    rw [← hta]
    exact hwf t (List.mem_filter.mp ht).1
  obtain ⟨hsden, hsum⟩ := jsSum_spec p.2 hwf'
  have hlenpos : 0 < (l.filter (fun t => t.category = p.1)).length :=
    List.length_pos.mpr hne
  have hlen : p.2.length = (l.filter (fun t => t.category = p.1)).length := by
    rw [← hlook, List.length_map]
  refine ⟨hne, ?_, ?_⟩
  · rw [← htotal, hsum, hlook]
  · rw [← havg, ← htotal]
    obtain ⟨_, hdiv⟩ := JsNumber.div_spec (jsSum p.2)
      (JsNumber.ofInt (p.2.length : Int)) hsden Nat.one_pos
      (by
        show (p.2.length : Int) ≠ 0
        omega)
    rw [hdiv, JsNumber.ofInt_toRat, hlen]
    simp

theorem formatTransaction_amount (t : Transaction) :
    0 < (formatTransaction t).amount.den ∧
    (formatTransaction t).amount.toRat = (t.amount : ℚ) / 100 := by
  obtain ⟨h1, h2⟩ := JsNumber.div_spec (JsNumber.ofInt t.amount) (JsNumber.ofInt 100)
    Nat.one_pos Nat.one_pos (by norm_num [JsNumber.ofInt])
  refine ⟨h1, ?_⟩
  show ((JsNumber.ofInt t.amount).div (JsNumber.ofInt 100)).toRat = _
  rw [h2, JsNumber.ofInt_toRat, JsNumber.ofInt_toRat]
  norm_num

theorem formattedExpenses_spec (txs : List Transaction) :
    ((formattedExpenses txs).map (fun t => t.amount.toRat) =
      (expenseTransactions txs).map (fun t => (t.amount : ℚ) / 100)) ∧
    (∀ f ∈ formattedExpenses txs, f.isIncome = false ∧ 0 < f.amount.den) := by
  constructor
  · unfold formattedExpenses
    rw [List.map_map]
    apply List.map_congr_left
    intro t _
    exact (formatTransaction_amount t).2
  · intro f hf
    obtain ⟨t, ht, hft⟩ := List.mem_map.mp hf
    have hinc : t.isIncome = false := by
      have := (List.mem_filter.mp ht).2
      simpa using this
    constructor
    · rw [← hft]
      show t.isIncome = false
      exact hinc
    · rw [← hft]
      exact (formatTransaction_amount t).1

/-- C4 (amended): given the minimum number of transactions, every
generator filters to expenses and converts cents to rupees by dividing by
100, and issues exactly one chat-completion call; the forecast, budget and
savings generators group the amounts by category and embed those
aggregates in the prompt, while the bill and pattern detectors embed the
formatted transaction list itself (no category grouping); parsing the
reply substitutes the stated defaults (confidence `0.5`, rounded numeric
amounts `0`, `timeframeMonths` `3`, `targetAmount` the requested goal
amount, `""` for text). -/
theorem generator_pipeline :
    ∀ (txs : List Transaction) (respond : ChatOracle) (ta : JsNumber),
      ((formattedExpenses txs).map (fun t => t.amount.toRat) =
        (expenseTransactions txs).map (fun t => (t.amount : ℚ) / 100)) ∧
      (∀ f ∈ formattedExpenses txs, f.isIncome = false) ∧
      (∀ c total avg,
        (c, total, avg) ∈ categoryTotals (groupAmounts (formattedExpenses txs)) →
        ((formattedExpenses txs).filter (fun t => t.category = c)) ≠ [] ∧
        total.toRat =
          (((formattedExpenses txs).filter (fun t => t.category = c)).map
            (fun t => t.amount.toRat)).sum ∧
        avg.toRat = total.toRat /
          (((formattedExpenses txs).filter (fun t => t.category = c)).length : ℚ)) ∧
      (¬ txs.length < 5 →
        (generateSpendingForecast txs respond).2 = [forecastRequest txs] ∧
        (generateBudgetSuggestions txs respond).2 = [budgetRequest txs] ∧
        (generateSavingsGoal txs (some ta) respond).2 =
          [savingsRequest txs (savingsGoalAmount (some ta))] ∧
        (∃ a b c, (forecastRequest txs).user =
          a ++ Json.stringify (.arr ((formattedExpenses txs).map encodeFormattedTx)) ++
          b ++ Json.stringify (encodeCategoryTotals
            (categoryTotals (groupAmounts (formattedExpenses txs)))) ++ c) ∧
        (∃ a b, (budgetRequest txs).user =
          a ++ Json.stringifyPretty 0
            (encodeBudgetGroups (budgetGroups (formattedExpenses txs))) ++ b) ∧
        (∃ a b, (savingsRequest txs (savingsGoalAmount (some ta))).user =
          a ++ Json.stringifyPretty 0 (encodeCategoryAnalysis
            (categoryAnalysis (groupAmounts (formattedExpenses txs)))) ++ b)) ∧
      (¬ txs.length < 10 →
        (detectBillReminders txs respond).2 = [billsRequest txs] ∧
        (detectSpendingPatterns txs respond).2 = [patternsRequest txs] ∧
        (∃ a b, (billsRequest txs).user =
          a ++ Json.stringifyPretty 0
            (.arr ((formattedExpenses txs).map encodeFormattedTx)) ++ b)) ∧
      (¬ txs.length < 5 →
        generateSpendingForecast txs emptyObjOracle =
          (some ⟨⟨0, .obj []⟩, ⟨1, 2⟩⟩, [forecastRequest txs]) ∧
        generateSavingsGoal txs none emptyObjOracle =
          (some ⟨JsNumber.ofInt 5000, JsNumber.ofInt 3, [], ""⟩,
           [savingsRequest txs (JsNumber.ofInt 5000)]) ∧
        (ta.num ≠ 0 →
          generateSavingsGoal txs (some ta) emptyObjOracle =
            (some ⟨ta, JsNumber.ofInt 3, [], ""⟩, [savingsRequest txs ta])) ∧
        generateBudgetSuggestions txs suggestionsOracle =
          (some [⟨Json.null, 0, 0, ""⟩], [budgetRequest txs])) ∧
      (¬ txs.length < 10 →
        detectBillReminders txs billsOracle =
          (some [⟨"", 0, "", ⟨1, 2⟩⟩], [billsRequest txs]) ∧
        detectSpendingPatterns txs patternsOracle =
          (some [⟨"", 0, ""⟩], [patternsRequest txs])) := by
  intro txs respond ta
  obtain ⟨hconv, hprops⟩ := formattedExpenses_spec txs
  refine ⟨hconv, fun f hf => (hprops f hf).1, ?_, ?_, ?_, ?_, ?_⟩
  · intro c total avg hmem
    obtain ⟨hne, hsum, havg⟩ := categoryTotals_mem (formattedExpenses txs)
      (fun t ht => (hprops t ht).2) c total avg hmem
    refine ⟨hne, ?_, havg⟩
    rw [hsum, List.map_map]
    rfl
  · intro h5
    refine ⟨generateSpendingForecast_calls txs respond h5,
      generateBudgetSuggestions_calls txs respond h5,
      generateSavingsGoal_calls txs (some ta) respond h5, ?_, ?_, ?_⟩
    · exact ⟨"Based on these transaction patterns, generate a spending forecast for next month in Indian Rupees (₹). \n          User transaction history: ",
        "\n          Category analysis: ",
        "\n          \n          Provide the forecast in JSON format with:\n          1. Expected total expense amount\n          2. Breakdown by category \n          3. Confidence level (0-1)",
        rfl⟩
    · exact ⟨"Based on these spending patterns in Indian Rupees (₹), generate budget suggestions for up to 3 categories where the user could improve. \n          \n          Category spending: ",
        "\n          \n          Format each suggestion as a JSON object with:\n          1. category name\n          2. current monthly spending\n          3. suggested budget (in rupees)\n          4. brief reasoning for the suggestion",
        rfl⟩
    · exact ⟨"Based on these spending patterns in Indian Rupees (₹), generate a realistic savings goal to save ₹" ++
          (savingsGoalAmount (some ta)).render ++
          ".\n          \n          Category spending: ",
        "\n          \n          Create a JSON response with:\n          1. targetAmount (the goal amount in rupees)\n          2. timeframeMonths (realistic number of months to achieve the goal, between 1-12)\n          3. categoryCuts (array of categories where spending can be reduced)\n             - Each categoryCut should have: category, currentSpending, suggestedReduction, and monthlySavings\n          4. brief reasoning explaining the plan",
        rfl⟩
  · intro h10
    refine ⟨detectBillReminders_calls txs respond h10,
      detectSpendingPatterns_calls txs respond h10, ?_⟩
    exact ⟨"Based on these transactions in Indian Rupees (₹), identify any recurring bills or subscriptions and when they might be due next.\n          \n          Transaction history: ",
      "\n          \n          Create a JSON response with an array of bill reminders, each containing:\n          1. description (what the bill seems to be for)\n          2. estimatedAmount (in rupees)\n          3. dueDate (estimated next due date in YYYY-MM-DD format)\n          4. confidence (0-1 indicating how confident you are in this prediction)",
      rfl⟩
  · intro h5
    refine ⟨?_, ?_, ?_, ?_⟩
    · unfold generateSpendingForecast
      rw [if_neg h5]
      rfl
    · unfold generateSavingsGoal
      rw [if_neg h5]
      rfl
    · intro hta
      unfold generateSavingsGoal
      rw [if_neg h5]
      have hgoal : savingsGoalAmount (some ta) = ta := by
        show (if ta.num = 0 then JsNumber.ofInt 5000 else ta) = ta
        rw [if_neg hta]
      rw [hgoal]
      rfl
    · unfold generateBudgetSuggestions
      rw [if_neg h5]
      rfl
  · intro h10
    constructor
    · unfold detectBillReminders
      rw [if_neg h10]
      rfl
    · unfold detectSpendingPatterns
      rw [if_neg h10]
      rfl

/-- Witness for `generator_pipeline` at the concrete ten-transaction
list: the forecast parse-defaults and the bill-reminder parse-defaults,
with the length hypotheses discharged. -/
theorem generator_pipeline_witness :
    generateSpendingForecast tenTxs emptyObjOracle =
      (some ⟨⟨0, .obj []⟩, ⟨1, 2⟩⟩, [forecastRequest tenTxs]) ∧
    detectBillReminders tenTxs billsOracle =
      (some [⟨"", 0, "", ⟨1, 2⟩⟩], [billsRequest tenTxs]) ∧
    generateSavingsGoal tenTxs (some (JsNumber.ofInt 2000)) emptyObjOracle =
      (some ⟨JsNumber.ofInt 2000, JsNumber.ofInt 3, [], ""⟩,
       [savingsRequest tenTxs (JsNumber.ofInt 2000)]) :=
  ⟨((generator_pipeline tenTxs emptyObjOracle (JsNumber.ofInt 2000)).2.2.2.2.2.1
      (by decide)).1,
   ((generator_pipeline tenTxs emptyObjOracle (JsNumber.ofInt 2000)).2.2.2.2.2.2
      (by decide)).1,
   ((generator_pipeline tenTxs emptyObjOracle (JsNumber.ofInt 2000)).2.2.2.2.2.1
      (by decide)).2.2.1 (by decide)⟩

set_option maxRecDepth 1000000 in
/-- C4 counterexample: for a concrete ten-transaction history,
`detectBillReminders` issues its one call, but its prompt does not contain
the per-category aggregates (whose serialization the forecast prompt does
contain): the bill and pattern detectors skip the claimed group-by-category
step. -/
theorem bills_prompt_lacks_aggregates :
    10 ≤ tenTxs.length ∧
    (detectBillReminders tenTxs emptyObjOracle).2 = [billsRequest tenTxs] ∧
    strContains (billsRequest tenTxs).user
      (Json.stringify (encodeCategoryTotals
        (categoryTotals (groupAmounts (formattedExpenses tenTxs))))) = false ∧
    strContains (forecastRequest tenTxs).user
      (Json.stringify (encodeCategoryTotals
        (categoryTotals (groupAmounts (formattedExpenses tenTxs))))) = true := by
  refine ⟨by decide, rfl, by decide, by decide⟩
